import Mathlib

/-!
Verification development for the alert-processing core of the kube-rca
backend. The Go sources are shallowly embedded: database tables become
lists of rows, every SQL statement becomes a pure function on a
`SystemState`, timestamps become integers (minutes), and the external
collaborators (Slack, the analysis agent) are driven by an `Env` record
that fixes their responses. Each definition mirrors one Go function and
keeps its name.
-/

namespace KubeRca

/-- Timestamps are integers (minutes); Go `time.Time` comparisons
(`Before`, `After`) become integer comparisons. -/
abbrev Timestamp := Int

/-- One incoming Alertmanager alert (`model.Alert`). -/
structure Alert where
  status : String
  labels : List (String × String)
  annotations : List (String × String)
  startsAt : Timestamp
  endsAt : Timestamp
  fingerprint : String
deriving Repr, DecidableEq

/-- Go map lookup `m["k"]` on a label map: the empty string when absent. -/
def lookupLabel (l : List (String × String)) (k : String) : String :=
  match l.find? (fun p => p.1 == k) with
  | some p => p.2
  | none => ""

/-- One row of the `alerts` table. Columns `created_at` and `updated_at`
carry no logic in the core and are omitted. -/
structure AlertRow where
  alertId : String
  incidentId : Option String
  alarmTitle : String
  severity : String
  status : String
  firedAt : Timestamp
  resolvedAt : Option Timestamp
  analysisSummary : String
  analysisDetail : String
  threadTS : String
  labels : List (String × String)
  annotations : List (String × String)
  isFlapping : Bool
  flapCycleCount : Nat
  flapWindowStart : Option Timestamp
  lastFlapNotificationAt : Option Timestamp
  isEnabled : Bool
deriving Repr, DecidableEq

/-- One row of the `alert_state_transitions` table. -/
structure TransitionRow where
  alertId : String
  fromStatus : String
  toStatus : String
  transitionedAt : Timestamp
deriving Repr, DecidableEq

/-- One row of the `incidents` table. -/
structure IncidentRow where
  incidentId : String
  title : String
  severity : String
  status : String
  firedAt : Timestamp
  resolvedAt : Option Timestamp
  resolvedBy : Option String
  analysisSummary : String
  analysisDetail : String
  isEnabled : Bool
deriving Repr, DecidableEq

/-- One message accepted by the Slack provider. -/
inductive ChatEvent where
  | alertCard (fingerprint status color : String) (threadTS : Option String)
  | flappingDetected (fingerprint incidentId : String) (cycleCount : Nat) (color : String)
  | flappingCleared (fingerprint threadTS : String)
  | analysisReply (threadTS text : String)
deriving Repr, DecidableEq

/-- The whole observable state: the database tables, the in-memory
Slack thread map, and logs of the outward effects (chat posts, spawned
analysis tasks, scheduled clearance checks, agent calls, incident
summary requests). `nextIncidentSeq` stands in for the uuid source used
by `CreateIncident`. -/
structure SystemState where
  alerts : List AlertRow
  transitions : List TransitionRow
  incidents : List IncidentRow
  threadMap : List (String × String)
  chat : List ChatEvent
  analysisReqs : List (String × String × String)
  clearanceChecks : List (String × Timestamp)
  agentCalls : List String
  summaryReqs : List String
  nextIncidentSeq : Nat
deriving Repr, DecidableEq

/-- External behaviour: the flapping configuration, whether the Slack
client is configured and whether the provider answers ok, and the
analysis text the agent returns per fingerprint (none = error). -/
structure Env where
  flapEnabled : Bool
  detectionWindowMinutes : Nat
  cycleThreshold : Nat
  clearanceWindowMinutes : Nat
  slackConfigured : Bool
  slackOk : Bool
  agentAnalysis : String → Option String

/-- The row of the `alerts` table with the given primary key
(`SELECT ... WHERE alert_id = $1`). -/
def findAlert (st : SystemState) (alertID : String) : Option AlertRow :=
  st.alerts.find? (fun r => r.alertId == alertID)

/-- Apply an UPDATE with `WHERE alert_id = $1` to the alerts table. -/
def updateAlertRow (st : SystemState) (alertID : String) (f : AlertRow → AlertRow) :
    SystemState :=
  { st with alerts := st.alerts.map (fun r => if r.alertId == alertID then f r else r) }

/-- The ON CONFLICT branch of Postgres.SaveAlert on one row: only
`status` is overwritten and `incident_id` becomes
`COALESCE(EXCLUDED.incident_id, alerts.incident_id)` (the excluded
value is a null pointer when the caller passed the empty string). -/
def saveUpd (a : Alert) (incidentID : String) (r : AlertRow) : AlertRow :=
  { r with
      incidentId := if incidentID == "" then r.incidentId else some incidentID,
      status := a.status }

/-- The row inserted by Postgres.SaveAlert for a new `alert_id`: all
supplied fields, with the severity defaulting to `warning` when the
label is empty and the other columns at their schema defaults. -/
def insertRow (a : Alert) (incidentID : String) : AlertRow :=
  { alertId := a.fingerprint,
    incidentId := if incidentID == "" then none else some incidentID,
    alarmTitle := lookupLabel a.labels "alertname",
    severity := if lookupLabel a.labels "severity" == "" then "warning"
                else lookupLabel a.labels "severity",
    status := a.status,
    firedAt := a.startsAt,
    resolvedAt := none,
    analysisSummary := "",
    analysisDetail := "",
    threadTS := "",
    labels := a.labels,
    annotations := a.annotations,
    isFlapping := false,
    flapCycleCount := 0,
    flapWindowStart := none,
    lastFlapNotificationAt := none,
    isEnabled := true }

/-- Postgres.SaveAlert: upsert by `alert_id`. -/
def SaveAlert (st : SystemState) (a : Alert) (incidentID : String) : SystemState :=
  match findAlert st a.fingerprint with
  | some _ => updateAlertRow st a.fingerprint (saveUpd a incidentID)
  | none => { st with alerts := st.alerts ++ [insertRow a incidentID] }

/-- Postgres.IsAlertAlreadyResolved: true iff the stored `resolved_at`
is non-null and the incoming `endsAt` is not after it. A missing row is
the query-error path, which the caller discards as false. -/
def IsAlertAlreadyResolved (st : SystemState) (alertID : String) (endsAt : Timestamp) : Bool :=
  match findAlert st alertID with
  | none => false
  | some r =>
    match r.resolvedAt with
    | none => false
    | some t => endsAt ≤ t

/-- Postgres.UpdateAlertResolved. -/
def UpdateAlertResolved (st : SystemState) (alertID : String) (resolvedAt : Timestamp) :
    SystemState :=
  updateAlertRow st alertID (fun r => { r with status := "resolved", resolvedAt := some resolvedAt })

/-- Postgres.UpdateAlertAnalysis. -/
def UpdateAlertAnalysis (st : SystemState) (alertID summary detail : String) : SystemState :=
  updateAlertRow st alertID (fun r => { r with analysisSummary := summary, analysisDetail := detail })

/-- Postgres.RecordStateTransition: append to the transition log. -/
def RecordStateTransition (st : SystemState) (alertID fromStatus toStatus : String)
    (timestamp : Timestamp) : SystemState :=
  { st with transitions := st.transitions ++
      [{ alertId := alertID, fromStatus := fromStatus, toStatus := toStatus,
         transitionedAt := timestamp }] }

/-- Postgres.GetAlertCurrentStatus: none is the no-row error path. -/
def GetAlertCurrentStatus (st : SystemState) (alertID : String) : Option String :=
  (findAlert st alertID).map (fun r => r.status)

/-- Postgres.IsAlertFlapping: false on any error. -/
def IsAlertFlapping (st : SystemState) (alertID : String) : Bool :=
  match findAlert st alertID with
  | some r => r.isFlapping
  | none => false

/-- Postgres.CountFlappingCycles. When `flap_window_start` is null or
older than `now - window`, it answers `(1, now)` without writing
anything; otherwise it counts resolved transitions inside the stored
window. none is the no-row error path. -/
def CountFlappingCycles (st : SystemState) (now : Timestamp) (alertID : String)
    (windowMinutes : Nat) : Option (Nat × Timestamp) :=
  match findAlert st alertID with
  | none => none
  | some r =>
    match r.flapWindowStart with
    | none => some (1, now)
    | some ws =>
      if ws < now - (windowMinutes : Int) then some (1, now)
      else some ((st.transitions.filter (fun t =>
        t.alertId == alertID && t.toStatus == "resolved" && decide (ws ≤ t.transitionedAt))).length, ws)

/-- Postgres.MarkAlertAsFlapping: the set branch also stamps
`last_flap_notification_at = NOW()`; the clear branch resets the
flapping columns. -/
def MarkAlertAsFlapping (st : SystemState) (alertID : String) (isFlapping : Bool)
    (cycleCount : Nat) (windowStart : Timestamp) (now : Timestamp) : SystemState :=
  if isFlapping then
    updateAlertRow st alertID (fun r =>
      { r with isFlapping := isFlapping, flapCycleCount := cycleCount,
               flapWindowStart := some windowStart, lastFlapNotificationAt := some now })
  else
    updateAlertRow st alertID (fun r =>
      { r with isFlapping := false, flapCycleCount := 0, flapWindowStart := none })

/-- Postgres.UpdateFlappingCycleCount. -/
def UpdateFlappingCycleCount (st : SystemState) (alertID : String) (cycleCount : Nat) :
    SystemState :=
  updateAlertRow st alertID (fun r => { r with flapCycleCount := cycleCount })

/-- Postgres.HasTransitionsSince: strictly after `since`. -/
def HasTransitionsSince (st : SystemState) (alertID : String) (since : Timestamp) : Bool :=
  0 < (st.transitions.filter (fun t =>
    t.alertId == alertID && decide (since < t.transitionedAt))).length

/-- Postgres.GetAlertThreadTS: some only when the row exists and the
stored `thread_ts` is not empty. -/
def GetAlertThreadTS (st : SystemState) (alertID : String) : Option String :=
  match findAlert st alertID with
  | none => none
  | some r => if r.threadTS == "" then none else some r.threadTS

/-- Postgres.UpdateAlertThreadTS. -/
def UpdateAlertThreadTS (st : SystemState) (alertID threadTS : String) : SystemState :=
  updateAlertRow st alertID (fun r => { r with threadTS := threadTS })

/-- The row selected by `ORDER BY fired_at DESC LIMIT 1`: the first row
whose `fired_at` is maximal (later rows win only when strictly later). -/
def pickLatest : List IncidentRow → Option IncidentRow
  | [] => none
  | r :: rs =>
    match pickLatest rs with
    | none => some r
    | some b => if r.firedAt < b.firedAt then some b else some r

/-- Postgres.GetFiringIncident: the latest firing, enabled incident;
none is the `pgx.ErrNoRows` path. -/
def GetFiringIncident (st : SystemState) : Option IncidentRow :=
  pickLatest (st.incidents.filter (fun i => i.status == "firing" && i.isEnabled))

/-- Postgres.CreateIncident. The Go id is `"INC-" + uuid[:8]`; the
uuid source is modelled by the `nextIncidentSeq` counter. -/
def CreateIncident (st : SystemState) (title severity : String) (firedAt : Timestamp) :
    String × SystemState :=
  let incidentID := "INC-" ++ toString st.nextIncidentSeq
  (incidentID, { st with
      incidents := st.incidents ++ [{
        incidentId := incidentID, title := title, severity := severity,
        status := "firing", firedAt := firedAt, resolvedAt := none,
        resolvedBy := none, analysisSummary := "", analysisDetail := "",
        isEnabled := true }],
      nextIncidentSeq := st.nextIncidentSeq + 1 })

/-- The per-row effect of the UPDATE in Postgres.UpdateIncidentSeverity:
the severity is overwritten only when the stored value is `info`, or is
`warning` and the incoming one is `critical`. -/
def sevUpdRow (incidentID severity : String) (r : IncidentRow) : IncidentRow :=
  if r.incidentId == incidentID &&
      (r.severity == "info" || (r.severity == "warning" && severity == "critical")) then
    { r with severity := severity }
  else r

/-- Postgres.UpdateIncidentSeverity. -/
def UpdateIncidentSeverity (st : SystemState) (incidentID severity : String) : SystemState :=
  { st with incidents := st.incidents.map (sevUpdRow incidentID severity) }

/-- Postgres.ResolveIncident: one guarded UPDATE; none models the
"no firing incident found" error returned when no row was affected. -/
def ResolveIncident (st : SystemState) (incidentID resolvedBy : String) (now : Timestamp) :
    Option SystemState :=
  let affected := (st.incidents.filter (fun r =>
    r.incidentId == incidentID && r.status == "firing")).length
  if affected == 0 then none
  else some { st with incidents := st.incidents.map (fun r =>
    if r.incidentId == incidentID && r.status == "firing" then
      { r with status := "resolved", resolvedAt := some now, resolvedBy := some resolvedBy }
    else r) }

/-- RcaService.ResolveIncident: forward the repository error, otherwise
detach the incident-summary task (recorded in `summaryReqs`). -/
def RcaResolveIncident (st : SystemState) (incidentID resolvedBy : String) (now : Timestamp) :
    Option SystemState :=
  match ResolveIncident st incidentID resolvedBy now with
  | none => none
  | some st1 => some { st1 with summaryReqs := st1.summaryReqs ++ [incidentID] }

/-- SlackClient.GetThreadTS on the in-memory map. -/
def GetThreadTSMem (st : SystemState) (fingerprint : String) : Option String :=
  (st.threadMap.find? (fun p => p.1 == fingerprint)).map (fun p => p.2)

/-- SlackClient.StoreThreadTS on the in-memory map (overwrite). -/
def StoreThreadTSMem (st : SystemState) (fingerprint threadTS : String) : SystemState :=
  { st with threadMap := (fingerprint, threadTS) ::
      st.threadMap.filter (fun p => p.1 != fingerprint) }

/-- SlackClient.DeleteThreadTS on the in-memory map. -/
def DeleteThreadTSMem (st : SystemState) (fingerprint : String) : SystemState :=
  { st with threadMap := st.threadMap.filter (fun p => p.1 != fingerprint) }

/-- SlackClient.getColorByStatus. -/
def getColorByStatus (status severity : String) : String :=
  if status == "resolved" then "#36a64f"
  else if severity == "critical" then "#dc3545"
  else if severity == "warning" then "#ffc107"
  else "#17a2b8"

/-- The message timestamp the provider returns; modelled as a fresh
deterministic string per posted message. -/
def nextTS (st : SystemState) : String :=
  "ts-" ++ toString st.chat.length

/-- SlackClient.SendAlert: fails when unconfigured or when the provider
answers non-ok; a resolved alert is posted into the stored thread; a
firing post stores the returned timestamp as the thread root; a resolved
post drops the in-memory entry. none is the error return. -/
def SendAlert (env : Env) (st : SystemState) (a : Alert) (status incidentID : String) :
    Option SystemState :=
  if !env.slackConfigured then none
  else
    let color := getColorByStatus status (lookupLabel a.labels "severity")
    let threadTS : Option String :=
      if status == "resolved" then GetThreadTSMem st a.fingerprint else none
    if !env.slackOk then none
    else
      let ts := nextTS st
      let st1 := { st with chat := st.chat ++ [ChatEvent.alertCard a.fingerprint status color threadTS] }
      let st2 := if status == "firing" && ts != "" then StoreThreadTSMem st1 a.fingerprint ts else st1
      let st3 := if status == "resolved" then DeleteThreadTSMem st2 a.fingerprint else st2
      some st3

/-- Modelled from the spec: SlackClient.SendFlappingDetection is absent
from the sources (only its caller in the pipeline is present); per the
spec it posts an amber warning card to the channel, with the usual
failure semantics of a Slack post. -/
def SendFlappingDetection (env : Env) (st : SystemState) (a : Alert) (incidentID : String)
    (cycleCount : Nat) : Option SystemState :=
  if env.slackConfigured && env.slackOk then
    some { st with chat := st.chat ++
      [ChatEvent.flappingDetected a.fingerprint incidentID cycleCount "#ffc107"] }
  else none

/-- Modelled from the spec: SlackClient.SendFlappingCleared is absent
from the sources (only its caller is present); per the spec it posts a
"flapping cleared" message to the thread. -/
def SendFlappingCleared (env : Env) (st : SystemState) (fingerprint threadTS : String) :
    Option SystemState :=
  if env.slackConfigured && env.slackOk then
    some { st with chat := st.chat ++ [ChatEvent.flappingCleared fingerprint threadTS] }
  else none

/-- SlackClient.SendToThread (used for the analysis reply). -/
def SendToThread (env : Env) (st : SystemState) (threadTS text : String) :
    Option SystemState :=
  if env.slackConfigured && env.slackOk then
    some { st with chat := st.chat ++ [ChatEvent.analysisReply threadTS text] }
  else none

/-- AlertService.getOrCreateIncident: reuse the firing incident after a
conditional severity bump, otherwise create an `Ongoing`, `TBD` one.
The non-ErrNoRows repository error branch has no counterpart in the
pure model. -/
def getOrCreateIncident (st : SystemState) (a : Alert) : String × SystemState :=
  match GetFiringIncident st with
  | some incident =>
      let severity := lookupLabel a.labels "severity"
      let st1 := if severity == "" then st
                 else UpdateIncidentSeverity st incident.incidentId severity
      (incident.incidentId, st1)
  | none =>
      CreateIncident st "Ongoing" "TBD" a.startsAt

/-- AlertService.shouldProcess. -/
def shouldProcess (a : Alert) : Bool :=
  let severity := lookupLabel a.labels "severity"
  severity == "warning" || severity == "critical"

/-- AlertService.shouldSendToSlack. -/
def shouldSendToSlack (a : Alert) : Bool :=
  let severity := lookupLabel a.labels "severity"
  severity == "warning" || severity == "critical"

/-- AlertService.detectFlapping. Returns (isFlapping, isNewFlapping)
together with the updated state. -/
def detectFlapping (env : Env) (st : SystemState) (now : Timestamp) (a : Alert) :
    Bool × Bool × SystemState :=
  if !env.flapEnabled then (false, false, st)
  else
    match GetAlertCurrentStatus st a.fingerprint with
    | none => (false, false, st)
    | some currentStatus =>
      if currentStatus == a.status then (IsAlertFlapping st a.fingerprint, false, st)
      else
        let timestamp := if a.status == "resolved" then a.endsAt else a.startsAt
        let st1 := RecordStateTransition st a.fingerprint currentStatus a.status timestamp
        if a.status != "resolved" then (IsAlertFlapping st1 a.fingerprint, false, st1)
        else
          match CountFlappingCycles st1 now a.fingerprint env.detectionWindowMinutes with
          | none => (false, false, st1)
          | some (cycleCount, windowStart) =>
            let wasFlapping := IsAlertFlapping st1 a.fingerprint
            let isNowFlapping : Bool := decide (env.cycleThreshold ≤ cycleCount)
            if isNowFlapping && !wasFlapping then
              (true, true, MarkAlertAsFlapping st1 a.fingerprint true cycleCount windowStart now)
            else if isNowFlapping then
              (true, false, UpdateFlappingCycleCount st1 a.fingerprint cycleCount)
            else (false, false, st1)

/-- AlertService.getFlappingCycleCount: the count only, zero on error. -/
def getFlappingCycleCount (env : Env) (st : SystemState) (now : Timestamp)
    (fingerprint : String) : Nat :=
  match CountFlappingCycles st now fingerprint env.detectionWindowMinutes with
  | some p => p.1
  | none => 0

/-- Steps 7 and 8 of the loop body of AlertService.ProcessWebhook (the
code after the `skipSlack` label): persist the thread root of a firing
alert, then spawn the detached analysis task unless the alert is
flapping. -/
def afterSend (st : SystemState) (a : Alert) (incidentID : String) (isFlapping : Bool) :
    SystemState :=
  let st7 :=
    if a.status == "firing" then
      match GetThreadTSMem st a.fingerprint with
      | some ts => UpdateAlertThreadTS st a.fingerprint ts
      | none => st
    else st
  if isFlapping then st7
  else
    let threadTS := (GetAlertThreadTS st7 a.fingerprint).getD ""
    { st7 with analysisReqs := st7.analysisReqs ++ [(a.fingerprint, threadTS, incidentID)] }

/-- Step 5 of the loop body of AlertService.ProcessWebhook: for a
resolved alert, restore the in-memory thread entry from the persisted
thread timestamp. -/
def restoreThread (st4 : SystemState) (a : Alert) : SystemState :=
  if a.status == "resolved" then
    match GetAlertThreadTS st4 a.fingerprint with
    | some ts => StoreThreadTSMem st4 a.fingerprint ts
    | none => st4
  else st4

/-- Steps 6 to 8 of the loop body of AlertService.ProcessWebhook: the
chat fanout decision, the thread persistence and the analysis
scheduling, given the flapping classification flags. -/
def fanout (env : Env) (now : Timestamp) (st5 : SystemState) (a : Alert)
    (incidentID : String) (isFlapping isNewFlapping : Bool) : SystemState × Nat × Nat :=
  if isNewFlapping then
    match SendFlappingDetection env st5 a incidentID
        (getFlappingCycleCount env st5 now a.fingerprint) with
    | none => (st5, 0, 1)
    | some st6 => (afterSend st6 a incidentID isFlapping, 1, 0)
  else if isFlapping then
    (afterSend st5 a incidentID isFlapping, 1, 0)
  else
    match SendAlert env st5 a a.status incidentID with
    | none => (st5, 0, 1)
    | some st6 => (afterSend st6 a incidentID isFlapping, 1, 0)

/-- Steps 3 to 8 of the loop body of AlertService.ProcessWebhook,
after the resolved-duplicate guard has passed: the resolved update and
clearance scheduling, the Slack filter, the thread restore and the
fanout. The two flags are the result of the flapping classification. -/
def processAfterGuard (env : Env) (now : Timestamp) (st3 : SystemState) (a : Alert)
    (incidentID : String) (isFlapping isNewFlapping : Bool) : SystemState × Nat × Nat :=
  let st4 :=
    if a.status == "resolved" then
      let stR := UpdateAlertResolved st3 a.fingerprint a.endsAt
      if isFlapping then
        { stR with clearanceChecks := stR.clearanceChecks ++ [(a.fingerprint, a.endsAt)] }
      else stR
    else st3
  if !shouldSendToSlack a then (st4, 0, 0)
  else fanout env now (restoreThread st4 a) a incidentID isFlapping isNewFlapping

/-- The loop body of AlertService.ProcessWebhook for one alert; the
returned pair counts the sent and failed increments of this alert. -/
def processAlert (env : Env) (now : Timestamp) (st : SystemState) (a : Alert) :
    SystemState × Nat × Nat :=
  if !shouldProcess a then (st, 0, 0)
  else
    let p := getOrCreateIncident st a
    let st2 := SaveAlert p.2 a p.1
    let d := detectFlapping env st2 now a
    if a.status == "resolved" && IsAlertAlreadyResolved d.2.2 a.fingerprint a.endsAt then
      (d.2.2, 0, 0)
    else
      processAfterGuard env now d.2.2 a p.1 d.1 d.2.1

/-- AlertService.ProcessWebhook: fold the loop body over the batch,
aggregating the sent and failed counters. -/
def ProcessWebhook (env : Env) (now : Timestamp) (st : SystemState) (alerts : List Alert) :
    SystemState × Nat × Nat :=
  alerts.foldl (fun acc a =>
    let r := processAlert env now acc.1 a
    (r.1, acc.2.1 + r.2.1, acc.2.2 + r.2.2)) (st, 0, 0)

/-- Body of AlertService.scheduleFlappingClearanceCheck once the timer
at `resolvedAt + clearance` fires; the sleep itself is not modelled.
The returned Bool tells whether the flapping flag was cleared. -/
def runFlappingClearanceCheck (env : Env) (st : SystemState) (fingerprint : String)
    (resolvedAt : Timestamp) : Bool × SystemState :=
  match findAlert st fingerprint with
  | none => (false, st)
  | some alert =>
    if !alert.isFlapping then (false, st)
    else if alert.status == "firing" ||
        (match alert.resolvedAt with
         | some r => decide (r < resolvedAt)
         | none => false) then (false, st)
    else if HasTransitionsSince st fingerprint resolvedAt then (false, st)
    else
      match GetAlertThreadTS (MarkAlertAsFlapping st fingerprint false 0 0 0) fingerprint with
      | some ts =>
        match SendFlappingCleared env (MarkAlertAsFlapping st fingerprint false 0 0 0)
            fingerprint ts with
        | some st2 => (true, st2)
        | none => (true, MarkAlertAsFlapping st fingerprint false 0 0 0)
      | none => (true, MarkAlertAsFlapping st fingerprint false 0 0 0)

/-- AgentService.RequestAnalysis: the detached analysis task. An empty
thread timestamp returns immediately; otherwise the agent is called,
and on success the analysis is stored on the alert and posted to the
thread (the Slack error is ignored). -/
def RequestAnalysis (env : Env) (st : SystemState) (a : Alert) (threadTS : String) :
    SystemState :=
  if threadTS == "" then st
  else
    let stCalled := { st with agentCalls := st.agentCalls ++ [a.fingerprint] }
    match env.agentAnalysis a.fingerprint with
    | none => stCalled
    | some analysis =>
      let st2 := UpdateAlertAnalysis stCalled a.fingerprint analysis analysis
      match SendToThread env st2 threadTS analysis with
      | some st3 => st3
      | none => st2

/-- One row of the `embeddings` table; the vector is kept abstract as a
list of rationals. -/
structure EmbeddingRow where
  incidentId : String
  incidentSummary : String
  embedding : List ℚ
deriving Repr, DecidableEq

/-- EmbeddingSearchResult as returned by the vector search. -/
structure EmbeddingSearchResult where
  incidentId : String
  incidentSummary : String
  similarity : ℚ
deriving Repr, DecidableEq

/-- Postgres.SearchEmbeddings: a non-positive limit falls back to 10;
rows are ordered by the distance operator ascending (similarity
descending) and truncated to the limit; each result carries
`1 - distance`. The pgvector cosine-distance operator is modelled by
the abstract distance function `dist`. -/
def SearchEmbeddings (dist : List ℚ → List ℚ → ℚ) (rows : List EmbeddingRow)
    (vector : List ℚ) (limit : Int) : List EmbeddingSearchResult :=
  let k := if limit ≤ 0 then (10 : Int) else limit
  let sorted := List.insertionSort
    (fun a b => dist a.embedding vector ≤ dist b.embedding vector) rows
  (sorted.take k.toNat).map (fun r =>
    { incidentId := r.incidentId, incidentSummary := r.incidentSummary,
      similarity := 1 - dist r.embedding vector })

/-- The state of a freshly bootstrapped database. -/
def emptyState : SystemState :=
  { alerts := [], transitions := [], incidents := [], threadMap := [], chat := [],
    analysisReqs := [], clearanceChecks := [], agentCalls := [], summaryReqs := [],
    nextIncidentSeq := 0 }

/-- The default configuration: window 30 minutes, threshold 3 cycles,
clearance 30 minutes, flapping enabled, a healthy Slack provider, and an
agent that errors (its responses are irrelevant to the scenarios). -/
def defaultEnv : Env :=
  { flapEnabled := true, detectionWindowMinutes := 30, cycleThreshold := 3,
    clearanceWindowMinutes := 30, slackConfigured := true, slackOk := true,
    agentAnalysis := fun _ => none }

/-- A webhook alert for fingerprint `x` in scenario S3 of the spec. -/
def s3Alert (status : String) (startsAt endsAt : Timestamp) : Alert :=
  { status := status, labels := [("alertname", "A"), ("severity", "warning")],
    annotations := [], startsAt := startsAt, endsAt := endsAt, fingerprint := "x" }

/-- Process one S3 webhook at the time of its event. -/
def s3Step (st : SystemState) (status : String) (startsAt endsAt now : Timestamp) :
    SystemState :=
  (processAlert defaultEnv now st (s3Alert status startsAt endsAt)).1

/-- The final state of scenario S3: three complete firing/resolved
cycles for fingerprint `x` at t = 0,1,2,3,4,5 minutes. -/
def s3Final : SystemState :=
  s3Step (s3Step (s3Step (s3Step (s3Step (s3Step emptyState
    "firing" 0 0 0) "resolved" 0 1 1) "firing" 2 0 2) "resolved" 2 3 3)
    "firing" 4 0 4) "resolved" 4 5 5

/-- True for the amber flapping-detected chat card. -/
def isFlappingDetectedPost : ChatEvent → Bool
  | ChatEvent.flappingDetected _ _ _ _ => true
  | _ => false

/-- Rank of a stored incident severity in the order
TBD < info < warning < critical. -/
def sevRank (s : String) : Nat :=
  if s == "info" then 1
  else if s == "warning" then 2
  else if s == "critical" then 3
  else 0

/-- A state holding one firing incident whose severity is still TBD. -/
def tbdIncidentState : SystemState :=
  { emptyState with incidents := [{
      incidentId := "INC-0", title := "Ongoing", severity := "TBD",
      status := "firing", firedAt := 0, resolvedAt := none, resolvedBy := none,
      analysisSummary := "", analysisDetail := "", isEnabled := true }] }

/-- A state where a flapping alert `x` was resolved at t = 10 (the
transition that scheduled the clearance check) and a later duplicate
resolved webhook moved `resolved_at` forward to 15 without recording a
transition. -/
def clearanceForwardState : SystemState :=
  { emptyState with
      alerts := [{
        alertId := "x", incidentId := some "INC-0", alarmTitle := "A",
        severity := "warning", status := "resolved", firedAt := 0,
        resolvedAt := some 15, analysisSummary := "", analysisDetail := "",
        threadTS := "", labels := [], annotations := [], isFlapping := true,
        flapCycleCount := 3, flapWindowStart := some 0,
        lastFlapNotificationAt := some 9, isEnabled := true }],
      transitions := [{
        alertId := "x", fromStatus := "firing",
        toStatus := "resolved", transitionedAt := 10 }] }

/-- A state where a flapping alert `x` is stably resolved at t = 10
with a known chat thread, ready for a successful clearance. -/
def clearanceReadyState : SystemState :=
  { emptyState with
      alerts := [{
        alertId := "x", incidentId := some "INC-0", alarmTitle := "A",
        severity := "warning", status := "resolved", firedAt := 0,
        resolvedAt := some 10, analysisSummary := "", analysisDetail := "",
        threadTS := "T1", labels := [], annotations := [], isFlapping := true,
        flapCycleCount := 3, flapWindowStart := some 0,
        lastFlapNotificationAt := some 9, isEnabled := true }],
      transitions := [{
        alertId := "x", fromStatus := "firing",
        toStatus := "resolved", transitionedAt := 10 }] }

/-- A state holding a flapping alert `x` that is already resolved at
t = 10; a duplicate resolved webhook for it follows. -/
def dupFlappingState : SystemState :=
  { emptyState with
      alerts := [{
        alertId := "x", incidentId := some "INC-0", alarmTitle := "A",
        severity := "warning", status := "resolved", firedAt := 0,
        resolvedAt := some 10, analysisSummary := "", analysisDetail := "",
        threadTS := "T1", labels := [("alertname", "A"), ("severity", "warning")],
        annotations := [], isFlapping := true, flapCycleCount := 3,
        flapWindowStart := some 0, lastFlapNotificationAt := some 9,
        isEnabled := true }],
      incidents := [{
        incidentId := "INC-0", title := "Ongoing", severity := "TBD",
        status := "firing", firedAt := 0, resolvedAt := none, resolvedBy := none,
        analysisSummary := "", analysisDetail := "", isEnabled := true }] }

/-- The duplicate resolved webhook for `x` with endsAt = 10. -/
def dupResolvedAlert : Alert :=
  { status := "resolved", labels := [("alertname", "A"), ("severity", "warning")],
    annotations := [], startsAt := 0, endsAt := 10, fingerprint := "x" }

/-- A state holding a flapping alert `x` that is still firing and has
never been resolved; a genuine resolved webhook for it follows. -/
def flappingFiringState : SystemState :=
  { dupFlappingState with
      alerts := [{
        alertId := "x", incidentId := some "INC-0", alarmTitle := "A",
        severity := "warning", status := "firing", firedAt := 0,
        resolvedAt := none, analysisSummary := "", analysisDetail := "",
        threadTS := "T1", labels := [("alertname", "A"), ("severity", "warning")],
        annotations := [], isFlapping := true, flapCycleCount := 3,
        flapWindowStart := some 0, lastFlapNotificationAt := some 9,
        isEnabled := true }] }

/-- A genuine resolved webhook for `x` with endsAt = 12. -/
def freshResolvedAlert : Alert :=
  { status := "resolved", labels := [("alertname", "A"), ("severity", "warning")],
    annotations := [], startsAt := 0, endsAt := 12, fingerprint := "x" }

/-- A state holding one DISABLED firing incident. -/
def disabledFiringState : SystemState :=
  { emptyState with incidents := [{
      incidentId := "INC-7", title := "Ongoing", severity := "warning",
      status := "firing", firedAt := 0, resolvedAt := none, resolvedBy := none,
      analysisSummary := "", analysisDetail := "", isEnabled := false }] }

/-- A concrete rational distance function for the vector-search
witness. -/
def qdist (a b : List ℚ) : ℚ :=
  (a.headD 0 - b.headD 0) * (a.headD 0 - b.headD 0)

/-- Two concrete embedding rows for the vector-search witness. -/
def embRows : List EmbeddingRow :=
  [{ incidentId := "INC-1", incidentSummary := "s1", embedding := [4] },
   { incidentId := "INC-2", incidentSummary := "s2", embedding := [1] }]

/-- A webhook alert with severity `info`, to be dropped by the
severity filter. -/
def infoAlert : Alert :=
  { status := "firing", labels := [("alertname", "B"), ("severity", "info")],
    annotations := [], startsAt := 0, endsAt := 0, fingerprint := "y" }

/-- C1: the claim fails on the code. After the three firing/resolved
cycles of scenario S3 (W = 30 minutes, N = 3) the stored row for `x`
still has `is_flapping = false`, an empty flapping window and a zero
cycle count, the transition log is empty (SaveAlert overwrites the
stored status before detectFlapping compares it, so no transition is
ever recorded), no flapping-detected chat post was made, and the
analysis request of the third resolved webhook was not suppressed (all
six webhooks spawned one). -/
theorem c1_s3_flapping_never_trips :
    (findAlert s3Final "x").map
        (fun r => (r.isFlapping, r.flapCycleCount, r.flapWindowStart)) =
      some (false, 0, none)
    ∧ s3Final.transitions = []
    ∧ s3Final.chat.countP isFlappingDetectedPost = 0
    ∧ s3Final.analysisReqs.length = 6 := by decide

/-- C2 counterexample: a stored severity of TBD is NOT replaced by a
concrete incoming severity — UpdateIncidentSeverity with `critical`
leaves the TBD incident untouched, contradicting the claim that TBD is
replaced by any concrete severity. -/
theorem c2_tbd_not_replaced :
    ((UpdateIncidentSeverity tbdIncidentState "INC-0" "critical").incidents.map
      (fun r => r.severity)) = ["TBD"]
    ∧ ("TBD" : String) ≠ "critical" := by decide

/-- Looking up one alert through an UPDATE that preserves primary keys
commutes with the update. -/
theorem findAlert_updateAlertRow (st : SystemState) (fp fp2 : String)
    (f : AlertRow → AlertRow) (hf : ∀ r, (f r).alertId = r.alertId) :
    findAlert (updateAlertRow st fp f) fp2 =
      (findAlert st fp2).map (fun r => if r.alertId == fp then f r else r) := by
  unfold findAlert updateAlertRow
  have key : ∀ l : List AlertRow,
      (l.map (fun r => if r.alertId == fp then f r else r)).find? (fun r => r.alertId == fp2) =
        (l.find? (fun r => r.alertId == fp2)).map
          (fun r => if r.alertId == fp then f r else r) := by
    intro l
    induction l with
    | nil => rfl
    | cons x xs ih =>
        by_cases hx : (x.alertId == fp2) = true
        · have hgx : ((if x.alertId == fp then f x else x).alertId == fp2) = true := by
            by_cases h : (x.alertId == fp) = true
            · rw [if_pos h, hf x]; exact hx
            · rw [if_neg h]; exact hx
          simp only [List.map_cons, List.find?]
          rw [hgx, hx]
          rfl
        · have hgx : ((if x.alertId == fp then f x else x).alertId == fp2) = false := by
            by_cases h : (x.alertId == fp) = true
            · rw [if_pos h, hf x]; exact Bool.eq_false_iff.mpr hx
            · rw [if_neg h]; exact Bool.eq_false_iff.mpr hx
          have hxf : (x.alertId == fp2) = false := Bool.eq_false_iff.mpr hx
          simp only [List.map_cons, List.find?]
          rw [hgx, hxf]
          exact ih
  exact key st.alerts

/-- Clearing the flapping columns does not change the stored thread
timestamp of any alert. -/
theorem GetAlertThreadTS_clearFlapping (st : SystemState) (fp fp2 : String)
    (c : Nat) (w n : Timestamp) :
    GetAlertThreadTS (MarkAlertAsFlapping st fp false c w n) fp2 =
      GetAlertThreadTS st fp2 := by
  unfold MarkAlertAsFlapping
  rw [if_neg (by simp)]
  unfold GetAlertThreadTS
  rw [findAlert_updateAlertRow st fp fp2
    (fun r => { r with isFlapping := false, flapCycleCount := 0, flapWindowStart := none })
    (fun r => rfl)]
  cases h : findAlert st fp2 with
  | none => rfl
  | some r =>
      by_cases hid : (r.alertId == fp) = true
      · have hid2 : r.alertId = fp := by simpa using hid
        simp [hid2]
      · have hid2 : ¬ r.alertId = fp := by simpa using hid
        simp [hid2]

/-- MarkAlertAsFlapping never touches the chat log. -/
theorem chat_MarkAlertAsFlapping (st : SystemState) (fp : String) (b : Bool)
    (c : Nat) (w n : Timestamp) :
    (MarkAlertAsFlapping st fp b c w n).chat = st.chat := by
  unfold MarkAlertAsFlapping
  by_cases hb : b = true
  · rw [if_pos hb]; rfl
  · rw [if_neg hb]; rfl

/-- C3 counterexample: the deferred clearance task clears the flapping
flag although the stored `resolved_at` (15) has moved forward past the
`resolved_at` that scheduled the task (10): the code only cancels when
the stored value moved backward, not forward. -/
theorem c3_clears_despite_forward_resolved_at :
    (runFlappingClearanceCheck defaultEnv clearanceForwardState "x" 10).1 = true
    ∧ (findAlert (runFlappingClearanceCheck defaultEnv clearanceForwardState "x" 10).2 "x").map
        (fun r => r.isFlapping) = some false
    ∧ (findAlert clearanceForwardState "x").map (fun r => r.resolvedAt) = some (some 15)
    ∧ ¬ ((15 : Timestamp) ≤ 10) := by decide

/-- C3 amended: the clearance task clears `is_flapping` iff the alert
row exists, is still flapping, its status is not firing, its stored
`resolved_at` has not moved BACKWARD before the scheduling
`resolved_at` (a null or later value does not cancel), and no
transitions exist strictly after the scheduling `resolved_at`; on
clearance it posts a flapping-cleared message to the thread when a
thread reference is known and the provider accepts it. -/
theorem c3_clearance_characterization (env : Env) (st : SystemState) (fp : String)
    (sched : Timestamp) :
    ((runFlappingClearanceCheck env st fp sched).1 = true ↔
      ∃ r, findAlert st fp = some r ∧ r.isFlapping = true ∧ r.status ≠ "firing"
        ∧ (∀ t, r.resolvedAt = some t → sched ≤ t)
        ∧ HasTransitionsSince st fp sched = false)
    ∧ (∀ ts, (runFlappingClearanceCheck env st fp sched).1 = true →
        GetAlertThreadTS st fp = some ts →
        env.slackConfigured = true → env.slackOk = true →
        ChatEvent.flappingCleared fp ts ∈ (runFlappingClearanceCheck env st fp sched).2.chat) := by
  cases hfind : findAlert st fp with
  | none =>
      refine ⟨⟨fun hcl => ?_, ?_⟩, fun ts hcl => ?_⟩
      · exfalso
        unfold runFlappingClearanceCheck at hcl
        rw [hfind] at hcl
        simp at hcl
      · rintro ⟨r, hr, -⟩
        exact absurd hr (by simp)
      · exfalso
        unfold runFlappingClearanceCheck at hcl
        rw [hfind] at hcl
        simp at hcl
  | some alert =>
      by_cases hfl : alert.isFlapping = true
      case neg =>
        have hflF : alert.isFlapping = false := Bool.eq_false_iff.mpr hfl
        have hrun : runFlappingClearanceCheck env st fp sched = (false, st) := by
          simp [runFlappingClearanceCheck, hfind, hflF]
        refine ⟨⟨fun hcl => ?_, ?_⟩, fun ts hcl => ?_⟩
        · rw [hrun] at hcl; exact absurd hcl (by simp)
        · rintro ⟨r, hr, hflr, -⟩
          injection hr with hr
          rw [hr] at hfl
          exact absurd hflr hfl
        · rw [hrun] at hcl; exact absurd hcl (by simp)
      case pos =>
      by_cases hguard : (alert.status == "firing" ||
          (match alert.resolvedAt with
           | some r => decide (r < sched)
           | none => false)) = true
      case pos =>
        have hrun : runFlappingClearanceCheck env st fp sched = (false, st) := by
          simp only [runFlappingClearanceCheck, hfind, hfl]
          simp [hguard]
        refine ⟨⟨fun hcl => ?_, ?_⟩, fun ts hcl => ?_⟩
        · rw [hrun] at hcl; exact absurd hcl (by simp)
        · rintro ⟨r, hr, hflr, hstr, hresr, -⟩
          injection hr with hr
          subst hr
          rcases Bool.or_eq_true_iff.mp hguard with hfir | hback
          · exact absurd (show alert.status = "firing" from by simpa using hfir) hstr
          · cases hres : alert.resolvedAt with
            | none => rw [hres] at hback; exact absurd hback (by simp)
            | some t =>
                rw [hres] at hback
                have hlt : t < sched := by simpa using hback
                exact absurd (hresr t hres) (not_le.mpr hlt)
        · rw [hrun] at hcl; exact absurd hcl (by simp)
      case neg =>
      have hguardF := Bool.eq_false_iff.mpr hguard
      by_cases htr : HasTransitionsSince st fp sched = true
      case pos =>
        have hrun : runFlappingClearanceCheck env st fp sched = (false, st) := by
          simp only [runFlappingClearanceCheck, hfind, hfl]
          simp [hguardF, htr]
        refine ⟨⟨fun hcl => ?_, ?_⟩, fun ts hcl => ?_⟩
        · rw [hrun] at hcl; exact absurd hcl (by simp)
        · rintro ⟨r, hr, hflr, hstr, hresr, htrr⟩
          rw [htr] at htrr
          exact absurd htrr (by simp)
        · rw [hrun] at hcl; exact absurd hcl (by simp)
      case neg =>
        have htr2 : HasTransitionsSince st fp sched = false := Bool.eq_false_iff.mpr htr
        have hguard2 := Bool.or_eq_false_iff.mp hguardF
        have hcond : ∀ t, alert.resolvedAt = some t → sched ≤ t := by
          intro t ht
          have hback := hguard2.2
          rw [ht] at hback
          have hnl : ¬ (t < sched) := by simpa using hback
          exact not_lt.mp hnl
        have hstat : alert.status ≠ "firing" := by
          have hfir := hguard2.1
          simpa using hfir
        have hredux : runFlappingClearanceCheck env st fp sched =
            (match GetAlertThreadTS (MarkAlertAsFlapping st fp false 0 0 0) fp with
             | some ts =>
               (match SendFlappingCleared env (MarkAlertAsFlapping st fp false 0 0 0) fp ts with
                | some st2 => (true, st2)
                | none => (true, MarkAlertAsFlapping st fp false 0 0 0))
             | none => (true, MarkAlertAsFlapping st fp false 0 0 0)) := by
          simp only [runFlappingClearanceCheck, hfind, hfl]
          simp [hguardF, htr2]
        refine ⟨⟨fun _ => ⟨alert, rfl, hfl, hstat, hcond, htr2⟩, fun _ => ?_⟩,
          fun ts _ hts hcfg hok => ?_⟩
        · rw [hredux]
          cases hth : GetAlertThreadTS (MarkAlertAsFlapping st fp false 0 0 0) fp with
          | none => simp
          | some ts0 =>
              cases hsc : SendFlappingCleared env (MarkAlertAsFlapping st fp false 0 0 0) fp ts0 with
              | none => simp [hsc]
              | some st2 => simp [hsc]
        · have hso2 : (env.slackConfigured && env.slackOk) = true := by rw [hcfg, hok]; rfl
          have hth : GetAlertThreadTS (MarkAlertAsFlapping st fp false 0 0 0) fp = some ts := by
            rw [GetAlertThreadTS_clearFlapping]; exact hts
          have hsc : SendFlappingCleared env (MarkAlertAsFlapping st fp false 0 0 0) fp ts =
              some { (MarkAlertAsFlapping st fp false 0 0 0) with
                chat := (MarkAlertAsFlapping st fp false 0 0 0).chat ++
                  [ChatEvent.flappingCleared fp ts] } := by
            unfold SendFlappingCleared
            rw [if_pos hso2]
          rw [hredux, hth]
          simp [hsc]

section PreservationKit

@[simp] theorem alerts_updateAlertRow (st : SystemState) (fp : String) (f : AlertRow → AlertRow) :
    (updateAlertRow st fp f).alerts =
      st.alerts.map (fun r => if r.alertId == fp then f r else r) := rfl

@[simp] theorem incidents_updateAlertRow (st : SystemState) (fp : String) (f : AlertRow → AlertRow) :
    (updateAlertRow st fp f).incidents = st.incidents := rfl

@[simp] theorem transitions_updateAlertRow (st : SystemState) (fp : String) (f : AlertRow → AlertRow) :
    (updateAlertRow st fp f).transitions = st.transitions := rfl

@[simp] theorem threadMap_updateAlertRow (st : SystemState) (fp : String) (f : AlertRow → AlertRow) :
    (updateAlertRow st fp f).threadMap = st.threadMap := rfl

@[simp] theorem chat_updateAlertRow (st : SystemState) (fp : String) (f : AlertRow → AlertRow) :
    (updateAlertRow st fp f).chat = st.chat := rfl

@[simp] theorem analysisReqs_updateAlertRow (st : SystemState) (fp : String) (f : AlertRow → AlertRow) :
    (updateAlertRow st fp f).analysisReqs = st.analysisReqs := rfl

@[simp] theorem clearanceChecks_updateAlertRow (st : SystemState) (fp : String) (f : AlertRow → AlertRow) :
    (updateAlertRow st fp f).clearanceChecks = st.clearanceChecks := rfl

@[simp] theorem agentCalls_updateAlertRow (st : SystemState) (fp : String) (f : AlertRow → AlertRow) :
    (updateAlertRow st fp f).agentCalls = st.agentCalls := rfl

@[simp] theorem summaryReqs_updateAlertRow (st : SystemState) (fp : String) (f : AlertRow → AlertRow) :
    (updateAlertRow st fp f).summaryReqs = st.summaryReqs := rfl

@[simp] theorem nextIncidentSeq_updateAlertRow (st : SystemState) (fp : String) (f : AlertRow → AlertRow) :
    (updateAlertRow st fp f).nextIncidentSeq = st.nextIncidentSeq := rfl

@[simp] theorem alerts_RecordStateTransition (st : SystemState) (i f t : String) (ts : Timestamp) :
    (RecordStateTransition st i f t ts).alerts = st.alerts := rfl

@[simp] theorem incidents_RecordStateTransition (st : SystemState) (i f t : String) (ts : Timestamp) :
    (RecordStateTransition st i f t ts).incidents = st.incidents := rfl

@[simp] theorem chat_RecordStateTransition (st : SystemState) (i f t : String) (ts : Timestamp) :
    (RecordStateTransition st i f t ts).chat = st.chat := rfl

@[simp] theorem analysisReqs_RecordStateTransition (st : SystemState) (i f t : String) (ts : Timestamp) :
    (RecordStateTransition st i f t ts).analysisReqs = st.analysisReqs := rfl

@[simp] theorem threadMap_RecordStateTransition (st : SystemState) (i f t : String) (ts : Timestamp) :
    (RecordStateTransition st i f t ts).threadMap = st.threadMap := rfl

@[simp] theorem clearanceChecks_RecordStateTransition (st : SystemState) (i f t : String) (ts : Timestamp) :
    (RecordStateTransition st i f t ts).clearanceChecks = st.clearanceChecks := rfl

@[simp] theorem agentCalls_RecordStateTransition (st : SystemState) (i f t : String) (ts : Timestamp) :
    (RecordStateTransition st i f t ts).agentCalls = st.agentCalls := rfl

@[simp] theorem summaryReqs_RecordStateTransition (st : SystemState) (i f t : String) (ts : Timestamp) :
    (RecordStateTransition st i f t ts).summaryReqs = st.summaryReqs := rfl

@[simp] theorem nextIncidentSeq_RecordStateTransition (st : SystemState) (i f t : String) (ts : Timestamp) :
    (RecordStateTransition st i f t ts).nextIncidentSeq = st.nextIncidentSeq := rfl

@[simp] theorem alerts_StoreThreadTSMem (st : SystemState) (fp ts : String) :
    (StoreThreadTSMem st fp ts).alerts = st.alerts := rfl

@[simp] theorem incidents_StoreThreadTSMem (st : SystemState) (fp ts : String) :
    (StoreThreadTSMem st fp ts).incidents = st.incidents := rfl

@[simp] theorem transitions_StoreThreadTSMem (st : SystemState) (fp ts : String) :
    (StoreThreadTSMem st fp ts).transitions = st.transitions := rfl

@[simp] theorem chat_StoreThreadTSMem (st : SystemState) (fp ts : String) :
    (StoreThreadTSMem st fp ts).chat = st.chat := rfl

@[simp] theorem analysisReqs_StoreThreadTSMem (st : SystemState) (fp ts : String) :
    (StoreThreadTSMem st fp ts).analysisReqs = st.analysisReqs := rfl

@[simp] theorem clearanceChecks_StoreThreadTSMem (st : SystemState) (fp ts : String) :
    (StoreThreadTSMem st fp ts).clearanceChecks = st.clearanceChecks := rfl

@[simp] theorem agentCalls_StoreThreadTSMem (st : SystemState) (fp ts : String) :
    (StoreThreadTSMem st fp ts).agentCalls = st.agentCalls := rfl

@[simp] theorem summaryReqs_StoreThreadTSMem (st : SystemState) (fp ts : String) :
    (StoreThreadTSMem st fp ts).summaryReqs = st.summaryReqs := rfl

@[simp] theorem nextIncidentSeq_StoreThreadTSMem (st : SystemState) (fp ts : String) :
    (StoreThreadTSMem st fp ts).nextIncidentSeq = st.nextIncidentSeq := rfl

@[simp] theorem alerts_DeleteThreadTSMem (st : SystemState) (fp : String) :
    (DeleteThreadTSMem st fp).alerts = st.alerts := rfl

@[simp] theorem incidents_DeleteThreadTSMem (st : SystemState) (fp : String) :
    (DeleteThreadTSMem st fp).incidents = st.incidents := rfl

@[simp] theorem transitions_DeleteThreadTSMem (st : SystemState) (fp : String) :
    (DeleteThreadTSMem st fp).transitions = st.transitions := rfl

@[simp] theorem chat_DeleteThreadTSMem (st : SystemState) (fp : String) :
    (DeleteThreadTSMem st fp).chat = st.chat := rfl

@[simp] theorem analysisReqs_DeleteThreadTSMem (st : SystemState) (fp : String) :
    (DeleteThreadTSMem st fp).analysisReqs = st.analysisReqs := rfl

@[simp] theorem clearanceChecks_DeleteThreadTSMem (st : SystemState) (fp : String) :
    (DeleteThreadTSMem st fp).clearanceChecks = st.clearanceChecks := rfl

@[simp] theorem agentCalls_DeleteThreadTSMem (st : SystemState) (fp : String) :
    (DeleteThreadTSMem st fp).agentCalls = st.agentCalls := rfl

@[simp] theorem summaryReqs_DeleteThreadTSMem (st : SystemState) (fp : String) :
    (DeleteThreadTSMem st fp).summaryReqs = st.summaryReqs := rfl

@[simp] theorem nextIncidentSeq_DeleteThreadTSMem (st : SystemState) (fp : String) :
    (DeleteThreadTSMem st fp).nextIncidentSeq = st.nextIncidentSeq := rfl

@[simp] theorem incidents_SaveAlert (st : SystemState) (a : Alert) (i : String) :
    (SaveAlert st a i).incidents = st.incidents := by
  unfold SaveAlert; cases findAlert st a.fingerprint <;> rfl

@[simp] theorem transitions_SaveAlert (st : SystemState) (a : Alert) (i : String) :
    (SaveAlert st a i).transitions = st.transitions := by
  unfold SaveAlert; cases findAlert st a.fingerprint <;> rfl

@[simp] theorem chat_SaveAlert (st : SystemState) (a : Alert) (i : String) :
    (SaveAlert st a i).chat = st.chat := by
  unfold SaveAlert; cases findAlert st a.fingerprint <;> rfl

@[simp] theorem analysisReqs_SaveAlert (st : SystemState) (a : Alert) (i : String) :
    (SaveAlert st a i).analysisReqs = st.analysisReqs := by
  unfold SaveAlert; cases findAlert st a.fingerprint <;> rfl

@[simp] theorem threadMap_SaveAlert (st : SystemState) (a : Alert) (i : String) :
    (SaveAlert st a i).threadMap = st.threadMap := by
  unfold SaveAlert; cases findAlert st a.fingerprint <;> rfl

@[simp] theorem clearanceChecks_SaveAlert (st : SystemState) (a : Alert) (i : String) :
    (SaveAlert st a i).clearanceChecks = st.clearanceChecks := by
  unfold SaveAlert; cases findAlert st a.fingerprint <;> rfl

@[simp] theorem agentCalls_SaveAlert (st : SystemState) (a : Alert) (i : String) :
    (SaveAlert st a i).agentCalls = st.agentCalls := by
  unfold SaveAlert; cases findAlert st a.fingerprint <;> rfl

@[simp] theorem summaryReqs_SaveAlert (st : SystemState) (a : Alert) (i : String) :
    (SaveAlert st a i).summaryReqs = st.summaryReqs := by
  unfold SaveAlert; cases findAlert st a.fingerprint <;> rfl

@[simp] theorem nextIncidentSeq_SaveAlert (st : SystemState) (a : Alert) (i : String) :
    (SaveAlert st a i).nextIncidentSeq = st.nextIncidentSeq := by
  unfold SaveAlert; cases findAlert st a.fingerprint <;> rfl

@[simp] theorem incidents_MarkAlertAsFlapping (st : SystemState) (fp : String) (b : Bool)
    (c : Nat) (w n : Timestamp) :
    (MarkAlertAsFlapping st fp b c w n).incidents = st.incidents := by
  unfold MarkAlertAsFlapping; split <;> rfl

@[simp] theorem chat_MarkAlertAsFlapping2 (st : SystemState) (fp : String) (b : Bool)
    (c : Nat) (w n : Timestamp) :
    (MarkAlertAsFlapping st fp b c w n).chat = st.chat := by
  unfold MarkAlertAsFlapping; split <;> rfl

@[simp] theorem transitions_MarkAlertAsFlapping (st : SystemState) (fp : String) (b : Bool)
    (c : Nat) (w n : Timestamp) :
    (MarkAlertAsFlapping st fp b c w n).transitions = st.transitions := by
  unfold MarkAlertAsFlapping; split <;> rfl

@[simp] theorem analysisReqs_MarkAlertAsFlapping (st : SystemState) (fp : String) (b : Bool)
    (c : Nat) (w n : Timestamp) :
    (MarkAlertAsFlapping st fp b c w n).analysisReqs = st.analysisReqs := by
  unfold MarkAlertAsFlapping; split <;> rfl

@[simp] theorem threadMap_MarkAlertAsFlapping (st : SystemState) (fp : String) (b : Bool)
    (c : Nat) (w n : Timestamp) :
    (MarkAlertAsFlapping st fp b c w n).threadMap = st.threadMap := by
  unfold MarkAlertAsFlapping; split <;> rfl

@[simp] theorem clearanceChecks_MarkAlertAsFlapping (st : SystemState) (fp : String) (b : Bool)
    (c : Nat) (w n : Timestamp) :
    (MarkAlertAsFlapping st fp b c w n).clearanceChecks = st.clearanceChecks := by
  unfold MarkAlertAsFlapping; split <;> rfl

@[simp] theorem nextIncidentSeq_MarkAlertAsFlapping (st : SystemState) (fp : String) (b : Bool)
    (c : Nat) (w n : Timestamp) :
    (MarkAlertAsFlapping st fp b c w n).nextIncidentSeq = st.nextIncidentSeq := by
  unfold MarkAlertAsFlapping; split <;> rfl

@[simp] theorem incidents_UpdateIncidentSeverity (st : SystemState) (i s : String) :
    (UpdateIncidentSeverity st i s).incidents = st.incidents.map (sevUpdRow i s) := rfl

@[simp] theorem alerts_UpdateIncidentSeverity (st : SystemState) (i s : String) :
    (UpdateIncidentSeverity st i s).alerts = st.alerts := rfl

@[simp] theorem chat_UpdateIncidentSeverity (st : SystemState) (i s : String) :
    (UpdateIncidentSeverity st i s).chat = st.chat := rfl

@[simp] theorem transitions_UpdateIncidentSeverity (st : SystemState) (i s : String) :
    (UpdateIncidentSeverity st i s).transitions = st.transitions := rfl

@[simp] theorem analysisReqs_UpdateIncidentSeverity (st : SystemState) (i s : String) :
    (UpdateIncidentSeverity st i s).analysisReqs = st.analysisReqs := rfl

@[simp] theorem threadMap_UpdateIncidentSeverity (st : SystemState) (i s : String) :
    (UpdateIncidentSeverity st i s).threadMap = st.threadMap := rfl

@[simp] theorem clearanceChecks_UpdateIncidentSeverity (st : SystemState) (i s : String) :
    (UpdateIncidentSeverity st i s).clearanceChecks = st.clearanceChecks := rfl

@[simp] theorem nextIncidentSeq_UpdateIncidentSeverity (st : SystemState) (i s : String) :
    (UpdateIncidentSeverity st i s).nextIncidentSeq = st.nextIncidentSeq := rfl

@[simp] theorem alerts_CreateIncident (st : SystemState) (t s : String) (f : Timestamp) :
    (CreateIncident st t s f).2.alerts = st.alerts := rfl

@[simp] theorem chat_CreateIncident (st : SystemState) (t s : String) (f : Timestamp) :
    (CreateIncident st t s f).2.chat = st.chat := rfl

@[simp] theorem transitions_CreateIncident (st : SystemState) (t s : String) (f : Timestamp) :
    (CreateIncident st t s f).2.transitions = st.transitions := rfl

@[simp] theorem analysisReqs_CreateIncident (st : SystemState) (t s : String) (f : Timestamp) :
    (CreateIncident st t s f).2.analysisReqs = st.analysisReqs := rfl

@[simp] theorem threadMap_CreateIncident (st : SystemState) (t s : String) (f : Timestamp) :
    (CreateIncident st t s f).2.threadMap = st.threadMap := rfl

@[simp] theorem clearanceChecks_CreateIncident (st : SystemState) (t s : String) (f : Timestamp) :
    (CreateIncident st t s f).2.clearanceChecks = st.clearanceChecks := rfl

/-- getOrCreateIncident only touches the incidents table and the id
counter. -/
theorem getOrCreateIncident_frame (st : SystemState) (a : Alert) :
    ((getOrCreateIncident st a).2).alerts = st.alerts
    ∧ ((getOrCreateIncident st a).2).transitions = st.transitions
    ∧ ((getOrCreateIncident st a).2).chat = st.chat
    ∧ ((getOrCreateIncident st a).2).analysisReqs = st.analysisReqs
    ∧ ((getOrCreateIncident st a).2).threadMap = st.threadMap
    ∧ ((getOrCreateIncident st a).2).clearanceChecks = st.clearanceChecks := by
  unfold getOrCreateIncident
  cases GetFiringIncident st with
  | none => simp
  | some i =>
      by_cases h : (lookupLabel a.labels "severity" == "") = true
      · simp [h]
      · simp [h]

/-- detectFlapping only touches the alerts table and the transition
log. -/
theorem detectFlapping_frame (env : Env) (st : SystemState) (now : Timestamp) (a : Alert) :
    ((detectFlapping env st now a).2.2).incidents = st.incidents
    ∧ ((detectFlapping env st now a).2.2).chat = st.chat
    ∧ ((detectFlapping env st now a).2.2).analysisReqs = st.analysisReqs
    ∧ ((detectFlapping env st now a).2.2).threadMap = st.threadMap
    ∧ ((detectFlapping env st now a).2.2).clearanceChecks = st.clearanceChecks
    ∧ ((detectFlapping env st now a).2.2).nextIncidentSeq = st.nextIncidentSeq := by
  refine ⟨?_, ?_, ?_, ?_, ?_, ?_⟩ <;> (simp only [detectFlapping]; repeat' split) <;>
    (first | rfl | simp [UpdateFlappingCycleCount])

theorem findAlert_some_key {st : SystemState} {fp : String} {r : AlertRow}
    (h : findAlert st fp = some r) : (r.alertId == fp) = true := by
  unfold findAlert at h
  have h2 := List.find?_some h
  exact h2

theorem SaveAlert_found (st : SystemState) (a : Alert) (incidentID : String) (r0 : AlertRow)
    (h : findAlert st a.fingerprint = some r0) :
    SaveAlert st a incidentID = updateAlertRow st a.fingerprint (saveUpd a incidentID) := by
  unfold SaveAlert; rw [h]

theorem SaveAlert_new (st : SystemState) (a : Alert) (incidentID : String)
    (h : findAlert st a.fingerprint = none) :
    SaveAlert st a incidentID = { st with alerts := st.alerts ++ [insertRow a incidentID] } := by
  unfold SaveAlert; rw [h]

/-- The upsert always leaves a row for the alert, with the incoming
status. -/
theorem findAlert_SaveAlert_self (st : SystemState) (a : Alert) (incidentID : String) :
    findAlert (SaveAlert st a incidentID) a.fingerprint =
      some (match findAlert st a.fingerprint with
            | some r => saveUpd a incidentID r
            | none => insertRow a incidentID) := by
  cases h : findAlert st a.fingerprint with
  | some r =>
      rw [SaveAlert_found st a incidentID r h]
      rw [findAlert_updateAlertRow st a.fingerprint a.fingerprint (saveUpd a incidentID)
        (fun r => rfl)]
      rw [h]
      simp only [Option.map_some]
      have hk : r.alertId = a.fingerprint := by simpa using findAlert_some_key h
      simp [hk]
  | none =>
      rw [SaveAlert_new st a incidentID h]
      unfold findAlert at h ⊢
      show (st.alerts ++ [insertRow a incidentID]).find?
        (fun r => r.alertId == a.fingerprint) = some (insertRow a incidentID)
      rw [List.find?_append, h]
      simp [insertRow]

theorem SendAlert_some_frame (env : Env) (st : SystemState) (a : Alert)
    (status incidentID : String) (st6 : SystemState)
    (h : SendAlert env st a status incidentID = some st6) :
    st6.alerts = st.alerts ∧ st6.incidents = st.incidents ∧ st6.transitions = st.transitions
    ∧ st6.analysisReqs = st.analysisReqs ∧ st6.clearanceChecks = st.clearanceChecks
    ∧ st6.nextIncidentSeq = st.nextIncidentSeq
    ∧ st6.chat = st.chat ++ [ChatEvent.alertCard a.fingerprint status
        (getColorByStatus status (lookupLabel a.labels "severity"))
        (if status == "resolved" then GetThreadTSMem st a.fingerprint else none)] := by
  simp only [SendAlert] at h
  split at h
  · exact absurd h (by simp)
  · split at h
    · exact absurd h (by simp)
    · rw [Option.some.injEq] at h
      subst h
      refine ⟨?_, ?_, ?_, ?_, ?_, ?_, ?_⟩ <;> (repeat' split) <;> simp

theorem SendFlappingDetection_some_frame (env : Env) (st : SystemState) (a : Alert)
    (incidentID : String) (c : Nat) (st6 : SystemState)
    (h : SendFlappingDetection env st a incidentID c = some st6) :
    st6.alerts = st.alerts ∧ st6.incidents = st.incidents ∧ st6.transitions = st.transitions
    ∧ st6.analysisReqs = st.analysisReqs ∧ st6.clearanceChecks = st.clearanceChecks
    ∧ st6.nextIncidentSeq = st.nextIncidentSeq
    ∧ st6.chat = st.chat ++ [ChatEvent.flappingDetected a.fingerprint incidentID c "#ffc107"] := by
  simp only [SendFlappingDetection] at h
  split at h
  · rw [Option.some.injEq] at h
    subst h
    exact ⟨rfl, rfl, rfl, rfl, rfl, rfl, rfl⟩
  · exact absurd h (by simp)

theorem afterSend_resolved_flapping (st : SystemState) (a : Alert) (incidentID : String)
    (h : a.status = "resolved") :
    afterSend st a incidentID true = st := by
  unfold afterSend
  rw [h]
  simp

theorem afterSend_resolved_notflapping (st : SystemState) (a : Alert) (incidentID : String)
    (h : a.status = "resolved") :
    afterSend st a incidentID false =
      { st with analysisReqs := st.analysisReqs ++
          [(a.fingerprint, (GetAlertThreadTS st a.fingerprint).getD "", incidentID)] } := by
  unfold afterSend
  rw [h]
  simp

theorem afterSend_flapping_frame (st : SystemState) (a : Alert) (incidentID : String) :
    (afterSend st a incidentID true).chat = st.chat
    ∧ (afterSend st a incidentID true).analysisReqs = st.analysisReqs
    ∧ (afterSend st a incidentID true).incidents = st.incidents
    ∧ (afterSend st a incidentID true).transitions = st.transitions := by
  refine ⟨?_, ?_, ?_, ?_⟩ <;> (simp only [afterSend]; repeat' split) <;>
    (first | rfl | simp_all)

theorem findAlert_congr {st1 st2 : SystemState} (h : st1.alerts = st2.alerts) (fp : String) :
    findAlert st1 fp = findAlert st2 fp := by
  unfold findAlert; rw [h]

theorem IsAlertAlreadyResolved_congr {st1 st2 : SystemState} (h : st1.alerts = st2.alerts)
    (fp : String) (e : Timestamp) :
    IsAlertAlreadyResolved st1 fp e = IsAlertAlreadyResolved st2 fp e := by
  unfold IsAlertAlreadyResolved; rw [findAlert_congr h]

theorem map_cond_id {α : Type} (l : List α) (c : α → Bool) (f : α → α)
    (h : ∀ r ∈ l, c r = true → f r = r) :
    l.map (fun r => if c r then f r else r) = l := by
  induction l with
  | nil => rfl
  | cons x xs ih =>
      simp only [List.map_cons]
      have hx : (if c x then f x else x) = x := by
        by_cases hc : c x = true
        · rw [if_pos hc]; exact h x (List.mem_cons_self x xs) hc
        · rw [if_neg hc]
      rw [hx, ih (fun r hr hc => h r (List.mem_cons_of_mem x hr) hc)]

theorem pickLatest_map (g : IncidentRow → IncidentRow)
    (hg : ∀ r, (g r).firedAt = r.firedAt) (l : List IncidentRow) :
    pickLatest (l.map g) = Option.map g (pickLatest l) := by
  induction l with
  | nil => rfl
  | cons x xs ih =>
      simp only [List.map_cons, pickLatest, ih]
      cases pickLatest xs with
      | none => rfl
      | some b =>
          show (if (g x).firedAt < (g b).firedAt then some (g b) else some (g x)) =
            Option.map g (if x.firedAt < b.firedAt then some b else some x)
          by_cases hlt : x.firedAt < b.firedAt
          · have hc : (g x).firedAt < (g b).firedAt := by rw [hg, hg]; exact hlt
            rw [if_pos hc, if_pos hlt]
            rfl
          · have hc : ¬ (g x).firedAt < (g b).firedAt := by rw [hg, hg]; exact hlt
            rw [if_neg hc, if_neg hlt]
            rfl

theorem filter_map_comm (g : IncidentRow → IncidentRow) (p : IncidentRow → Bool)
    (hg : ∀ r, p (g r) = p r) (l : List IncidentRow) :
    (l.map g).filter p = (l.filter p).map g := by
  induction l with
  | nil => rfl
  | cons x xs ih =>
      simp only [List.map_cons, List.filter_cons, hg x]
      by_cases hx : p x = true
      · rw [if_pos hx, if_pos hx, List.map_cons, ih]
      · rw [if_neg hx, if_neg hx]
        exact ih

theorem sevUpdRow_fields (i s : String) (r : IncidentRow) :
    (sevUpdRow i s r).status = r.status ∧ (sevUpdRow i s r).isEnabled = r.isEnabled
    ∧ (sevUpdRow i s r).firedAt = r.firedAt ∧ (sevUpdRow i s r).incidentId = r.incidentId := by
  unfold sevUpdRow; split <;> exact ⟨rfl, rfl, rfl, rfl⟩

theorem GetFiringIncident_UpdateIncidentSeverity (st : SystemState) (i s : String) :
    GetFiringIncident (UpdateIncidentSeverity st i s) =
      Option.map (sevUpdRow i s) (GetFiringIncident st) := by
  unfold GetFiringIncident
  rw [incidents_UpdateIncidentSeverity]
  rw [filter_map_comm (sevUpdRow i s) _ (fun r => by
      have h := sevUpdRow_fields i s r
      simp [h.1, h.2.1])]
  exact pickLatest_map _ (fun r => (sevUpdRow_fields i s r).2.2.1) _

theorem pickLatest_isSome (x : IncidentRow) (xs : List IncidentRow) :
    (pickLatest (x :: xs)).isSome = true := by
  simp only [pickLatest]
  cases pickLatest xs with
  | none => rfl
  | some b =>
      show (if x.firedAt < b.firedAt then some b else some x).isSome = true
      split <;> rfl

theorem pickLatest_eq_none_iff (l : List IncidentRow) : pickLatest l = none ↔ l = [] := by
  cases l with
  | nil => simp [pickLatest]
  | cons x xs =>
      constructor
      · intro h
        have hs := pickLatest_isSome x xs
        rw [h] at hs
        exact absurd hs (by simp)
      · intro h
        exact absurd h (by simp)

theorem GetFiringIncident_CreateIncident (st : SystemState) (t s : String) (f : Timestamp)
    (h : GetFiringIncident st = none) :
    GetFiringIncident (CreateIncident st t s f).2 =
      some { incidentId := "INC-" ++ toString st.nextIncidentSeq, title := t, severity := s,
             status := "firing", firedAt := f, resolvedAt := none, resolvedBy := none,
             analysisSummary := "", analysisDetail := "", isEnabled := true } := by
  unfold GetFiringIncident at h ⊢
  unfold CreateIncident
  show pickLatest ((st.incidents ++ [_]).filter _) = _
  rw [List.filter_append]
  rw [(pickLatest_eq_none_iff _).mp h]
  simp [pickLatest]

theorem getOrCreateIncident_found (st : SystemState) (a : Alert) (i : IncidentRow)
    (h : GetFiringIncident st = some i) :
    (getOrCreateIncident st a).1 = i.incidentId := by
  unfold getOrCreateIncident; rw [h]

theorem getOrCreateIncident_found_state (st : SystemState) (a : Alert) (i : IncidentRow)
    (h : GetFiringIncident st = some i) :
    (getOrCreateIncident st a).2 =
      (if lookupLabel a.labels "severity" == "" then st
       else UpdateIncidentSeverity st i.incidentId (lookupLabel a.labels "severity")) := by
  unfold getOrCreateIncident; rw [h]

theorem getOrCreateIncident_none (st : SystemState) (a : Alert)
    (h : GetFiringIncident st = none) :
    getOrCreateIncident st a = CreateIncident st "Ongoing" "TBD" a.startsAt := by
  unfold getOrCreateIncident; rw [h]

/-- A second correlation performed on any state whose incidents table
equals the one produced by the first correlation yields the same
incident id: the incident found or created by the first run is still
the firing incident. -/
theorem getOrCreateIncident_stable (st : SystemState) (a : Alert) (st1 : SystemState)
    (hinc : st1.incidents = ((getOrCreateIncident st a).2).incidents) :
    (getOrCreateIncident st1 a).1 = (getOrCreateIncident st a).1 := by
  have hGF : GetFiringIncident st1 = GetFiringIncident (getOrCreateIncident st a).2 := by
    unfold GetFiringIncident; rw [hinc]
  cases h : GetFiringIncident st with
  | some i =>
      have h1 : (getOrCreateIncident st a).1 = i.incidentId :=
        getOrCreateIncident_found st a i h
      by_cases hsev : (lookupLabel a.labels "severity" == "") = true
      · have h2 : GetFiringIncident st1 = some i := by
          rw [hGF, getOrCreateIncident_found_state st a i h, if_pos hsev, h]
        rw [getOrCreateIncident_found st1 a i h2, h1]
      · have h2 : GetFiringIncident st1 =
            some (sevUpdRow i.incidentId (lookupLabel a.labels "severity") i) := by
          rw [hGF, getOrCreateIncident_found_state st a i h, if_neg hsev,
            GetFiringIncident_UpdateIncidentSeverity, h]
          rfl
        rw [getOrCreateIncident_found st1 a _ h2, h1]
        exact (sevUpdRow_fields _ _ i).2.2.2
  | none =>
      have hstate := getOrCreateIncident_none st a h
      have h2 : GetFiringIncident st1 =
          some { incidentId := "INC-" ++ toString st.nextIncidentSeq, title := "Ongoing",
                 severity := "TBD", status := "firing", firedAt := a.startsAt,
                 resolvedAt := none, resolvedBy := none, analysisSummary := "",
                 analysisDetail := "", isEnabled := true } := by
        rw [hGF, hstate]
        exact GetFiringIncident_CreateIncident st "Ongoing" "TBD" a.startsAt h
      rw [getOrCreateIncident_found st1 a _ h2, hstate]
      rfl

/-- When the stored status already equals the incoming one, the
flapping detector records nothing and leaves the state unchanged. -/
theorem detectFlapping_same_status (env : Env) (st : SystemState) (now : Timestamp)
    (a : Alert) (r : AlertRow) (h : findAlert st a.fingerprint = some r)
    (hs : r.status = a.status) :
    (detectFlapping env st now a).2.2 = st ∧ (detectFlapping env st now a).2.1 = false := by
  simp only [detectFlapping]
  by_cases he : (!env.flapEnabled) = true
  · rw [if_pos he]; exact ⟨rfl, rfl⟩
  · rw [if_neg he]
    have hcs : GetAlertCurrentStatus st a.fingerprint = some a.status := by
      unfold GetAlertCurrentStatus
      rw [h]
      simp [hs]
    simp [hcs]

/-- The repository contract of IsAlertAlreadyResolved. -/
theorem IsAlertAlreadyResolved_iff (st : SystemState) (fp : String) (e : Timestamp) :
    IsAlertAlreadyResolved st fp e = true ↔
      ∃ r, findAlert st fp = some r ∧ ∃ t, r.resolvedAt = some t ∧ e ≤ t := by
  unfold IsAlertAlreadyResolved
  cases h : findAlert st fp with
  | none => simp
  | some r =>
      cases hr : r.resolvedAt with
      | none => simp [hr]
      | some t => simp [hr]

theorem saveUpd_alertId (a : Alert) (i : String) (r : AlertRow) :
    (saveUpd a i r).alertId = r.alertId := rfl

theorem saveUpd_idem (a : Alert) (i : String) (r : AlertRow) :
    saveUpd a i (saveUpd a i r) = saveUpd a i r := by
  unfold saveUpd
  by_cases hi : (i == "") = true
  · simp [hi]
  · simp [hi]

theorem saveUpd_insertRow (a : Alert) (i : String) :
    saveUpd a i (insertRow a i) = insertRow a i := by
  unfold saveUpd insertRow
  by_cases hi : (i == "") = true
  · simp [hi]
  · simp [hi]

theorem saveUpd_resolvedUpd (a : Alert) (i : String) (r : AlertRow) (e : Timestamp)
    (hstatus : a.status = "resolved") :
    saveUpd a i { saveUpd a i r with status := "resolved", resolvedAt := some e } =
      { saveUpd a i r with status := "resolved", resolvedAt := some e } := by
  unfold saveUpd
  by_cases hi : (i == "") = true
  · simp [hi, hstatus]
  · simp [hi, hstatus]

theorem alerts_after_save (st : SystemState) (a : Alert) (i : String) :
    (SaveAlert st a i).alerts =
      match findAlert st a.fingerprint with
      | some _ => st.alerts.map (fun r =>
          if r.alertId == a.fingerprint then saveUpd a i r else r)
      | none => st.alerts ++ [insertRow a i] := by
  cases h : findAlert st a.fingerprint with
  | some r => rw [SaveAlert_found st a i r h]; rfl
  | none => rw [SaveAlert_new st a i h]

/-- The upsert leaves a row whose status is the incoming one. -/
theorem status_after_save (st : SystemState) (a : Alert) (i : String) :
    ∃ ρ, findAlert (SaveAlert st a i) a.fingerprint = some ρ ∧ ρ.status = a.status := by
  rw [findAlert_SaveAlert_self]
  refine ⟨_, rfl, ?_⟩
  cases findAlert st a.fingerprint <;> rfl

/-- The resolved-duplicate guard is insensitive to the preceding
upsert: SaveAlert never touches `resolved_at`. -/
theorem IsAlertAlreadyResolved_SaveAlert (st : SystemState) (a : Alert) (i : String)
    (e : Timestamp) :
    IsAlertAlreadyResolved (SaveAlert st a i) a.fingerprint e =
      IsAlertAlreadyResolved st a.fingerprint e := by
  unfold IsAlertAlreadyResolved
  rw [findAlert_SaveAlert_self]
  cases findAlert st a.fingerprint <;> rfl

/-- After UpdateAlertResolved with endsAt e, the guard for e holds. -/
theorem IsAlertAlreadyResolved_after_update (st : SystemState) (fp : String) (e : Timestamp)
    (hex : (findAlert st fp).isSome = true) :
    IsAlertAlreadyResolved (UpdateAlertResolved st fp e) fp e = true := by
  unfold IsAlertAlreadyResolved UpdateAlertResolved
  rw [findAlert_updateAlertRow st fp fp
    (fun r => { r with status := "resolved", resolvedAt := some e }) (fun r => rfl)]
  cases h : findAlert st fp with
  | none => rw [h] at hex; exact absurd hex (by simp)
  | some r =>
      have hk : r.alertId = fp := by simpa using findAlert_some_key h
      simp [h, hk]

theorem findAlert_UpdateAlertResolved (st : SystemState) (fp : String) (e : Timestamp) :
    findAlert (UpdateAlertResolved st fp e) fp =
      (findAlert st fp).map (fun r => if r.alertId == fp then
        { r with status := "resolved", resolvedAt := some e } else r) := by
  unfold UpdateAlertResolved
  exact findAlert_updateAlertRow st fp fp
    (fun r => { r with status := "resolved", resolvedAt := some e }) (fun r => rfl)

/-- Reduction of the loop body when the duplicate guard fires. -/
theorem processAlert_guard_true (env : Env) (st : SystemState) (now : Timestamp) (a : Alert)
    (hsp : shouldProcess a = true)
    (hcond : (a.status == "resolved" && IsAlertAlreadyResolved ((detectFlapping env
      (SaveAlert ((getOrCreateIncident st a).2) a ((getOrCreateIncident st a).1)) now
      a).2.2) a.fingerprint a.endsAt) = true) :
    processAlert env now st a =
      (((detectFlapping env (SaveAlert ((getOrCreateIncident st a).2) a
        ((getOrCreateIncident st a).1)) now a).2.2), 0, 0) := by
  have hfilter : ¬ (!shouldProcess a) = true := by simp [hsp]
  simp only [processAlert]
  rw [if_neg hfilter, if_pos hcond]

/-- Reduction of the loop body when the duplicate guard does not
fire. -/
theorem processAlert_guard_false (env : Env) (st : SystemState) (now : Timestamp) (a : Alert)
    (hsp : shouldProcess a = true)
    (hcond : ¬ (a.status == "resolved" && IsAlertAlreadyResolved ((detectFlapping env
      (SaveAlert ((getOrCreateIncident st a).2) a ((getOrCreateIncident st a).1)) now
      a).2.2) a.fingerprint a.endsAt) = true) :
    processAlert env now st a =
      processAfterGuard env now ((detectFlapping env (SaveAlert ((getOrCreateIncident
        st a).2) a ((getOrCreateIncident st a).1)) now a).2.2) a
        ((getOrCreateIncident st a).1)
        ((detectFlapping env (SaveAlert ((getOrCreateIncident st a).2) a
          ((getOrCreateIncident st a).1)) now a).1)
        ((detectFlapping env (SaveAlert ((getOrCreateIncident st a).2) a
          ((getOrCreateIncident st a).1)) now a).2.1) := by
  have hfilter : ¬ (!shouldProcess a) = true := by simp [hsp]
  simp only [processAlert]
  rw [if_neg hfilter, if_neg hcond]

@[simp] theorem alerts_restoreThread (st4 : SystemState) (a : Alert) :
    (restoreThread st4 a).alerts = st4.alerts := by
  unfold restoreThread
  split
  · cases GetAlertThreadTS st4 a.fingerprint <;> simp
  · rfl

@[simp] theorem incidents_restoreThread (st4 : SystemState) (a : Alert) :
    (restoreThread st4 a).incidents = st4.incidents := by
  unfold restoreThread
  split
  · cases GetAlertThreadTS st4 a.fingerprint <;> simp
  · rfl

@[simp] theorem transitions_restoreThread (st4 : SystemState) (a : Alert) :
    (restoreThread st4 a).transitions = st4.transitions := by
  unfold restoreThread
  split
  · cases GetAlertThreadTS st4 a.fingerprint <;> simp
  · rfl

@[simp] theorem chat_restoreThread (st4 : SystemState) (a : Alert) :
    (restoreThread st4 a).chat = st4.chat := by
  unfold restoreThread
  split
  · cases GetAlertThreadTS st4 a.fingerprint <;> simp
  · rfl

@[simp] theorem analysisReqs_restoreThread (st4 : SystemState) (a : Alert) :
    (restoreThread st4 a).analysisReqs = st4.analysisReqs := by
  unfold restoreThread
  split
  · cases GetAlertThreadTS st4 a.fingerprint <;> simp
  · rfl

@[simp] theorem clearanceChecks_restoreThread (st4 : SystemState) (a : Alert) :
    (restoreThread st4 a).clearanceChecks = st4.clearanceChecks := by
  unfold restoreThread
  split
  · cases GetAlertThreadTS st4 a.fingerprint <;> simp
  · rfl

@[simp] theorem nextIncidentSeq_restoreThread (st4 : SystemState) (a : Alert) :
    (restoreThread st4 a).nextIncidentSeq = st4.nextIncidentSeq := by
  unfold restoreThread
  split
  · cases GetAlertThreadTS st4 a.fingerprint <;> simp
  · rfl

theorem fanout_flapping (env : Env) (now : Timestamp) (st5 : SystemState) (a : Alert)
    (inc : String) :
    fanout env now st5 a inc true false = (afterSend st5 a inc true, 1, 0) := by
  simp [fanout]

theorem fanout_normal_none (env : Env) (now : Timestamp) (st5 : SystemState) (a : Alert)
    (inc : String) (hsend : SendAlert env st5 a a.status inc = none) :
    fanout env now st5 a inc false false = (st5, 0, 1) := by
  simp [fanout, hsend]

theorem fanout_normal_some (env : Env) (now : Timestamp) (st5 : SystemState) (a : Alert)
    (inc : String) (st6 : SystemState) (hsend : SendAlert env st5 a a.status inc = some st6) :
    fanout env now st5 a inc false false = (afterSend st6 a inc false, 1, 0) := by
  simp [fanout, hsend]

theorem processAfterGuard_flapping_eq (env : Env) (now : Timestamp) (st3 : SystemState)
    (a : Alert) (inc : String) (hstatus : a.status = "resolved")
    (hss : shouldSendToSlack a = true) :
    processAfterGuard env now st3 a inc true false =
      (afterSend (restoreThread { UpdateAlertResolved st3 a.fingerprint a.endsAt with
        clearanceChecks := (UpdateAlertResolved st3 a.fingerprint
          a.endsAt).clearanceChecks ++ [(a.fingerprint, a.endsAt)] } a) a inc true, 1, 0) := by
  have hbe : (a.status == "resolved") = true := by simp [hstatus]
  simp only [processAfterGuard, hbe, hss, if_true, Bool.not_true, Bool.false_eq_true,
    if_false]
  rw [fanout_flapping]

theorem processAfterGuard_normal_eq (env : Env) (now : Timestamp) (st3 : SystemState)
    (a : Alert) (inc : String) (hstatus : a.status = "resolved")
    (hss : shouldSendToSlack a = true) :
    processAfterGuard env now st3 a inc false false =
      fanout env now (restoreThread (UpdateAlertResolved st3 a.fingerprint a.endsAt) a) a
        inc false false := by
  have hbe : (a.status == "resolved") = true := by simp [hstatus]
  simp only [processAfterGuard, hbe, hss, if_true, Bool.not_true, Bool.false_eq_true,
    if_false]

/-- After the guard, a resolved alert ends with the resolved update
applied to the alerts table, and the incidents table and transition log
untouched. -/
theorem processAfterGuard_resolved_facts (env : Env) (now : Timestamp) (st3 : SystemState)
    (a : Alert) (inc : String) (isF : Bool)
    (hstatus : a.status = "resolved") (hss : shouldSendToSlack a = true) :
    ((processAfterGuard env now st3 a inc isF false).1).alerts =
      (UpdateAlertResolved st3 a.fingerprint a.endsAt).alerts
    ∧ ((processAfterGuard env now st3 a inc isF false).1).incidents = st3.incidents
    ∧ ((processAfterGuard env now st3 a inc isF false).1).transitions = st3.transitions := by
  cases isF with
  | true =>
      rw [processAfterGuard_flapping_eq env now st3 a inc hstatus hss]
      rw [afterSend_resolved_flapping _ _ _ hstatus]
      refine ⟨?_, ?_, ?_⟩ <;> simp [UpdateAlertResolved]
  | false =>
      rw [processAfterGuard_normal_eq env now st3 a inc hstatus hss]
      cases hsend : SendAlert env (restoreThread (UpdateAlertResolved st3 a.fingerprint
          a.endsAt) a) a a.status inc with
      | none =>
          rw [fanout_normal_none env now _ a inc hsend]
          refine ⟨?_, ?_, ?_⟩ <;> simp [UpdateAlertResolved]
      | some st6 =>
          rw [fanout_normal_some env now _ a inc st6 hsend]
          rw [afterSend_resolved_notflapping _ _ _ hstatus]
          have hfr := SendAlert_some_frame _ _ _ _ _ _ hsend
          refine ⟨?_, ?_, ?_⟩ <;> simp [hfr.1, hfr.2.1, hfr.2.2.1, UpdateAlertResolved]

/-- Everything the rest of the pipeline needs to know about the state
left by one processed resolved alert: the incidents table is the one of
the correlation step, a row for the alert exists with the incoming
status, the resolved-duplicate guard now holds, and the alerts table is
the upsert result with or without the resolved update. -/
theorem processAlert_first_run_facts (env : Env) (st : SystemState) (now : Timestamp)
    (a : Alert) (hsp : shouldProcess a = true) (hstatus : a.status = "resolved") :
    ((processAlert env now st a).1).incidents = ((getOrCreateIncident st a).2).incidents
    ∧ (∃ ρ, findAlert ((processAlert env now st a).1) a.fingerprint = some ρ
        ∧ ρ.status = a.status)
    ∧ IsAlertAlreadyResolved ((processAlert env now st a).1) a.fingerprint a.endsAt = true
    ∧ (((processAlert env now st a).1).alerts =
        (SaveAlert ((getOrCreateIncident st a).2) a ((getOrCreateIncident st a).1)).alerts
      ∨ ((processAlert env now st a).1).alerts =
        (UpdateAlertResolved (SaveAlert ((getOrCreateIncident st a).2) a
          ((getOrCreateIncident st a).1)) a.fingerprint a.endsAt).alerts) := by
  have hss : shouldSendToSlack a = true := by
    unfold shouldSendToSlack
    unfold shouldProcess at hsp
    exact hsp
  have hbe : (a.status == "resolved") = true := by simp [hstatus]
  obtain ⟨ρ0, hρ0, hρ0s⟩ :=
    status_after_save ((getOrCreateIncident st a).2) a ((getOrCreateIncident st a).1)
  have hdet := detectFlapping_same_status env
    (SaveAlert ((getOrCreateIncident st a).2) a ((getOrCreateIncident st a).1)) now a ρ0 hρ0
    (by rw [hρ0s])
  have hSinc : (SaveAlert ((getOrCreateIncident st a).2) a
      ((getOrCreateIncident st a).1)).incidents =
      ((getOrCreateIncident st a).2).incidents := incidents_SaveAlert _ _ _
  have hρR : findAlert (UpdateAlertResolved (SaveAlert ((getOrCreateIncident st a).2) a
      ((getOrCreateIncident st a).1)) a.fingerprint a.endsAt) a.fingerprint =
      some { ρ0 with status := "resolved", resolvedAt := some a.endsAt } := by
    rw [findAlert_UpdateAlertResolved, hρ0]
    simp [show ρ0.alertId = a.fingerprint from by simpa using findAlert_some_key hρ0]
  have hgR : IsAlertAlreadyResolved (UpdateAlertResolved (SaveAlert
      ((getOrCreateIncident st a).2) a ((getOrCreateIncident st a).1)) a.fingerprint a.endsAt)
      a.fingerprint a.endsAt = true :=
    IsAlertAlreadyResolved_after_update _ _ _ (by rw [hρ0]; rfl)
  by_cases hg : IsAlertAlreadyResolved ((detectFlapping env (SaveAlert
      ((getOrCreateIncident st a).2) a ((getOrCreateIncident st a).1)) now a).2.2)
      a.fingerprint a.endsAt = true
  case pos =>
    have heq := processAlert_guard_true env st now a hsp (by rw [hbe, hg]; rfl)
    rw [hdet.1] at heq hg
    rw [heq]
    exact ⟨hSinc, ⟨ρ0, hρ0, hρ0s⟩, hg, Or.inl rfl⟩
  case neg =>
    have heq := processAlert_guard_false env st now a hsp (by
      simp only [Bool.and_eq_true_iff]
      intro hand
      exact hg hand.2)
    rw [hdet.1, hdet.2] at heq
    rw [heq]
    have hfacts := processAfterGuard_resolved_facts env now (SaveAlert
      ((getOrCreateIncident st a).2) a ((getOrCreateIncident st a).1)) a
      ((getOrCreateIncident st a).1)
      ((detectFlapping env (SaveAlert ((getOrCreateIncident st a).2) a
        ((getOrCreateIncident st a).1)) now a).1) hstatus hss
    refine ⟨by rw [hfacts.2.1, hSinc],
      ⟨{ ρ0 with status := "resolved", resolvedAt := some a.endsAt }, ?_, hstatus.symm⟩,
      ?_, Or.inr hfacts.1⟩
    · rw [findAlert_congr hfacts.1]
      exact hρR
    · rw [IsAlertAlreadyResolved_congr hfacts.1]
      exact hgR

theorem map_id_of_mem {α : Type} (l : List α) (f : α → α) (h : ∀ r ∈ l, f r = r) :
    l.map f = l := by
  induction l with
  | nil => rfl
  | cons x xs ih =>
      simp only [List.map_cons]
      rw [h x (List.mem_cons_self x xs), ih (fun r hr => h r (List.mem_cons_of_mem x hr))]

theorem alerts_SaveAlert_congr (stX stY : SystemState) (a : Alert) (i : String)
    (h : stX.alerts = stY.alerts) :
    (SaveAlert stX a i).alerts = (SaveAlert stY a i).alerts := by
  unfold SaveAlert
  rw [findAlert_congr h]
  cases hf : findAlert stY a.fingerprint with
  | some r =>
      show (updateAlertRow stX a.fingerprint (saveUpd a i)).alerts =
        (updateAlertRow stY a.fingerprint (saveUpd a i)).alerts
      rw [alerts_updateAlertRow, alerts_updateAlertRow, h]
  | none =>
      show stX.alerts ++ [insertRow a i] = stY.alerts ++ [insertRow a i]
      rw [h]

/-- Every row left by the upsert is either a fixed point of the
conflict update or a row for another alert. -/
theorem SaveAlert_mem (stA : SystemState) (a : Alert) (i : String) (r : AlertRow)
    (hr : r ∈ (SaveAlert stA a i).alerts) :
    saveUpd a i r = r ∨ (r.alertId == a.fingerprint) = false := by
  cases hfound : findAlert stA a.fingerprint with
  | some r0 =>
      rw [SaveAlert_found stA a i r0 hfound] at hr
      have hr2 : r ∈ stA.alerts.map
          (fun x => if x.alertId == a.fingerprint then saveUpd a i x else x) := hr
      obtain ⟨r1, hr1, hrE⟩ := List.mem_map.mp hr2
      by_cases hc : (r1.alertId == a.fingerprint) = true
      · left
        rw [← hrE]
        simp only [hc, if_true]
        exact saveUpd_idem a i r1
      · right
        rw [← hrE]
        simp only [if_neg hc]
        simpa using hc
  | none =>
      rw [SaveAlert_new stA a i hfound] at hr
      have hr2 : r ∈ stA.alerts ++ [insertRow a i] := hr
      rcases List.mem_append.mp hr2 with hmem | hmem
      · right
        unfold findAlert at hfound
        have hno := List.find?_eq_none.mp hfound r hmem
        simpa using hno
      · left
        have hins : r = insertRow a i := by simpa using hmem
        rw [hins]
        exact saveUpd_insertRow a i

/-- Every row left by the resolved update after the upsert is either a
fixed point of the conflict update or a row for another alert. -/
theorem UpdateAlertResolved_SaveAlert_mem (stA : SystemState) (a : Alert) (i : String)
    (e : Timestamp) (hstatus : a.status = "resolved") (r : AlertRow)
    (hr : r ∈ (UpdateAlertResolved (SaveAlert stA a i) a.fingerprint e).alerts) :
    saveUpd a i r = r ∨ (r.alertId == a.fingerprint) = false := by
  have hr2 : r ∈ (SaveAlert stA a i).alerts.map
      (fun x => if x.alertId == a.fingerprint then
        { x with status := "resolved", resolvedAt := some e } else x) := hr
  obtain ⟨r1, hr1, hrE⟩ := List.mem_map.mp hr2
  have h1 := SaveAlert_mem stA a i r1 hr1
  by_cases hc : (r1.alertId == a.fingerprint) = true
  · rcases h1 with h1 | h1
    · left
      rw [← hrE]
      simp only [hc, if_true]
      have h2 := saveUpd_resolvedUpd a i r1 e hstatus
      rw [h1] at h2
      exact h2
    · rw [hc] at h1
      exact absurd h1 (by simp)
  · right
    rw [← hrE]
    simp only [if_neg hc]
    simpa using hc

/-- Re-running the upsert for a resolved alert on a state whose alerts
table was left by the first upsert (with or without the subsequent
resolved update) does not change the alerts table. -/
theorem SaveAlert_second_identity (stA : SystemState) (a : Alert) (i : String)
    (e : Timestamp) (hstatus : a.status = "resolved") (st1 : SystemState)
    (h1 : st1.alerts = (SaveAlert stA a i).alerts ∨
          st1.alerts = (UpdateAlertResolved (SaveAlert stA a i) a.fingerprint e).alerts) :
    (SaveAlert st1 a i).alerts = st1.alerts := by
  obtain ⟨ρS, hρS, hρSs⟩ := status_after_save stA a i
  have hrow : (findAlert st1 a.fingerprint).isSome = true := by
    rcases h1 with h1 | h1
    · rw [findAlert_congr h1, hρS]
      rfl
    · rw [findAlert_congr h1, findAlert_UpdateAlertResolved, hρS]
      rfl
  obtain ⟨ρ1, hρ1⟩ := Option.isSome_iff_exists.mp hrow
  rw [SaveAlert_found st1 a i ρ1 hρ1, alerts_updateAlertRow]
  apply map_id_of_mem
  intro r hr
  have hd : saveUpd a i r = r ∨ (r.alertId == a.fingerprint) = false := by
    rcases h1 with h1 | h1
    · exact SaveAlert_mem stA a i r (h1 ▸ hr)
    · exact UpdateAlertResolved_SaveAlert_mem stA a i e hstatus r (h1 ▸ hr)
  rcases hd with hd | hd
  · by_cases hc : (r.alertId == a.fingerprint) = true
    · rw [if_pos hc]
      exact hd
    · rw [if_neg hc]
  · rw [if_neg (by simp [hd])]

/-- A resolved webhook whose endsAt is already covered by the stored
resolved timestamp short circuits right after the upsert: only the
correlation step and the upsert run, and the counters stay zero. -/
theorem processAlert_duplicate_skip (env : Env) (st1 : SystemState) (now2 : Timestamp)
    (a : Alert) (hsp : shouldProcess a = true) (hstatus : a.status = "resolved")
    (hdup : IsAlertAlreadyResolved st1 a.fingerprint a.endsAt = true) :
    processAlert env now2 st1 a =
      (SaveAlert ((getOrCreateIncident st1 a).2) a ((getOrCreateIncident st1 a).1), 0, 0) := by
  obtain ⟨ρ, hρ, hρs⟩ := status_after_save ((getOrCreateIncident st1 a).2) a
    ((getOrCreateIncident st1 a).1)
  have hdet := detectFlapping_same_status env (SaveAlert ((getOrCreateIncident st1 a).2) a
    ((getOrCreateIncident st1 a).1)) now2 a ρ hρ (by rw [hρs])
  have hgS : IsAlertAlreadyResolved (SaveAlert ((getOrCreateIncident st1 a).2) a
      ((getOrCreateIncident st1 a).1)) a.fingerprint a.endsAt = true := by
    rw [IsAlertAlreadyResolved_SaveAlert]
    rw [IsAlertAlreadyResolved_congr (getOrCreateIncident_frame st1 a).1]
    exact hdup
  have hbe : (a.status == "resolved") = true := by simp [hstatus]
  have heq := processAlert_guard_true env st1 now2 a hsp (by rw [hdet.1, hbe, hgS]; rfl)
  rw [heq, hdet.1]

/-- C4: resolved-duplicate idempotence. The repository guard
is_alert_already_resolved(alert_id, T) returns true exactly when the
stored resolved_at is non-null and at least T; when it already holds,
the pipeline skips every remaining step for the alert: the counters
stay (0, 0), no chat post and no analysis task are produced, and the
stored resolved_at is untouched. Consequently submitting the same
resolved webhook twice yields the same persisted alert state: the
second invocation leaves the alerts table, the chat log, the analysis
tasks and the transition log of the first run unchanged and counts
nothing. -/
theorem c4_resolved_duplicate_idempotent (env : Env) (st : SystemState)
    (now now2 : Timestamp) (a : Alert)
    (hstatus : a.status = "resolved")
    (hsev : lookupLabel a.labels "severity" = "warning" ∨
            lookupLabel a.labels "severity" = "critical") :
    (IsAlertAlreadyResolved st a.fingerprint a.endsAt = true ↔
      ∃ r, findAlert st a.fingerprint = some r ∧
        ∃ t, r.resolvedAt = some t ∧ a.endsAt ≤ t)
    ∧ (IsAlertAlreadyResolved st a.fingerprint a.endsAt = true →
        (processAlert env now st a).2 = (0, 0)
        ∧ ((processAlert env now st a).1).chat = st.chat
        ∧ ((processAlert env now st a).1).analysisReqs = st.analysisReqs
        ∧ (findAlert ((processAlert env now st a).1) a.fingerprint).map
            (fun r => r.resolvedAt) =
          (findAlert st a.fingerprint).map (fun r => r.resolvedAt))
    ∧ (((processAlert env now2 ((processAlert env now st a).1) a).1).alerts =
          ((processAlert env now st a).1).alerts
        ∧ ((processAlert env now2 ((processAlert env now st a).1) a).1).chat =
          ((processAlert env now st a).1).chat
        ∧ ((processAlert env now2 ((processAlert env now st a).1) a).1).analysisReqs =
          ((processAlert env now st a).1).analysisReqs
        ∧ ((processAlert env now2 ((processAlert env now st a).1) a).1).transitions =
          ((processAlert env now st a).1).transitions
        ∧ (processAlert env now2 ((processAlert env now st a).1) a).2 = (0, 0)) := by
  have hsp : shouldProcess a = true := by
    simp only [shouldProcess]
    rcases hsev with h | h <;> rw [h] <;> rfl
  refine ⟨IsAlertAlreadyResolved_iff st a.fingerprint a.endsAt, ?_, ?_⟩
  · intro hdup
    obtain ⟨r, hrfind, t, hrt, hle⟩ :=
      (IsAlertAlreadyResolved_iff st a.fingerprint a.endsAt).mp hdup
    have heq2 := processAlert_duplicate_skip env st now a hsp hstatus hdup
    refine ⟨by rw [heq2], ?_, ?_, ?_⟩
    · rw [heq2]
      show (SaveAlert ((getOrCreateIncident st a).2) a
        ((getOrCreateIncident st a).1)).chat = st.chat
      rw [chat_SaveAlert]
      exact (getOrCreateIncident_frame st a).2.2.1
    · rw [heq2]
      show (SaveAlert ((getOrCreateIncident st a).2) a
        ((getOrCreateIncident st a).1)).analysisReqs = st.analysisReqs
      rw [analysisReqs_SaveAlert]
      exact (getOrCreateIncident_frame st a).2.2.2.1
    · rw [heq2]
      show (findAlert (SaveAlert ((getOrCreateIncident st a).2) a
          ((getOrCreateIncident st a).1)) a.fingerprint).map (fun x => x.resolvedAt) =
        (findAlert st a.fingerprint).map (fun x => x.resolvedAt)
      rw [findAlert_SaveAlert_self]
      have hfa : findAlert ((getOrCreateIncident st a).2) a.fingerprint =
          findAlert st a.fingerprint :=
        findAlert_congr (getOrCreateIncident_frame st a).1 a.fingerprint
      rw [hfa, hrfind]
      rfl
  · have hfacts := processAlert_first_run_facts env st now a hsp hstatus
    have hdup1 := hfacts.2.2.1
    have heq3 := processAlert_duplicate_skip env ((processAlert env now st a).1) now2 a
      hsp hstatus hdup1
    have hinc1 : (getOrCreateIncident ((processAlert env now st a).1) a).1 =
        (getOrCreateIncident st a).1 :=
      getOrCreateIncident_stable st a ((processAlert env now st a).1) hfacts.1
    have hsave : (SaveAlert ((getOrCreateIncident ((processAlert env now st a).1) a).2) a
        ((getOrCreateIncident ((processAlert env now st a).1) a).1)).alerts =
        ((processAlert env now st a).1).alerts := by
      rw [alerts_SaveAlert_congr _ ((processAlert env now st a).1) a _
        (getOrCreateIncident_frame ((processAlert env now st a).1) a).1]
      rw [hinc1]
      exact SaveAlert_second_identity ((getOrCreateIncident st a).2) a
        ((getOrCreateIncident st a).1) a.endsAt hstatus ((processAlert env now st a).1)
        hfacts.2.2.2
    refine ⟨?_, ?_, ?_, ?_, by rw [heq3]⟩
    · rw [heq3]
      exact hsave
    · rw [heq3]
      show (SaveAlert ((getOrCreateIncident ((processAlert env now st a).1) a).2) a
        ((getOrCreateIncident ((processAlert env now st a).1) a).1)).chat =
        ((processAlert env now st a).1).chat
      rw [chat_SaveAlert]
      exact (getOrCreateIncident_frame ((processAlert env now st a).1) a).2.2.1
    · rw [heq3]
      show (SaveAlert ((getOrCreateIncident ((processAlert env now st a).1) a).2) a
        ((getOrCreateIncident ((processAlert env now st a).1) a).1)).analysisReqs =
        ((processAlert env now st a).1).analysisReqs
      rw [analysisReqs_SaveAlert]
      exact (getOrCreateIncident_frame ((processAlert env now st a).1) a).2.2.2.1
    · rw [heq3]
      show (SaveAlert ((getOrCreateIncident ((processAlert env now st a).1) a).2) a
        ((getOrCreateIncident ((processAlert env now st a).1) a).1)).transitions =
        ((processAlert env now st a).1).transitions
      rw [transitions_SaveAlert]
      exact (getOrCreateIncident_frame ((processAlert env now st a).1) a).2.1

/-- Witness: the resolved-duplicate idempotence theorem applied to a
concrete resolved warning webhook against the empty state. -/
theorem c4_resolved_duplicate_idempotent_witness :
    freshResolvedAlert.status = "resolved"
    ∧ lookupLabel freshResolvedAlert.labels "severity" = "warning"
    ∧ ((processAlert defaultEnv 13 ((processAlert defaultEnv 12 emptyState
        freshResolvedAlert).1) freshResolvedAlert).1).alerts =
      ((processAlert defaultEnv 12 emptyState freshResolvedAlert).1).alerts := by
  have h := c4_resolved_duplicate_idempotent defaultEnv emptyState 12 13
    freshResolvedAlert rfl (Or.inl rfl)
  exact ⟨rfl, rfl, h.2.2.1⟩

theorem processAlert_filtered (env : Env) (now : Timestamp) (st : SystemState) (a : Alert)
    (h : shouldProcess a = false) :
    processAlert env now st a = (st, 0, 0) := by
  simp only [processAlert]
  rw [if_pos (by rw [h]; rfl)]

/-- C5: the upsert frame. A new alert_id stores all supplied fields;
on conflict only status changes and incident_id becomes
COALESCE(new, old), so an already-set incident_id is never cleared and
severity, fired_at, resolved_at, labels, annotations, thread_ts, the
analysis fields, the flapping fields and is_enabled are untouched; rows
of every other alert_id are never touched at all. -/
theorem c5_save_alert_upsert_frame (st : SystemState) (a : Alert) (i : String) :
    (findAlert st a.fingerprint = none →
      (SaveAlert st a i).alerts = st.alerts ++ [insertRow a i]
      ∧ (insertRow a i).alertId = a.fingerprint
      ∧ (insertRow a i).status = a.status
      ∧ (insertRow a i).firedAt = a.startsAt
      ∧ (insertRow a i).labels = a.labels
      ∧ (insertRow a i).annotations = a.annotations
      ∧ (insertRow a i).incidentId = (if i == "" then none else some i))
    ∧ (∀ r0, findAlert st a.fingerprint = some r0 →
        findAlert (SaveAlert st a i) a.fingerprint = some (saveUpd a i r0)
        ∧ (saveUpd a i r0).status = a.status
        ∧ (saveUpd a i r0).incidentId = (if i == "" then r0.incidentId else some i)
        ∧ (saveUpd a i r0).alertId = r0.alertId
        ∧ (saveUpd a i r0).severity = r0.severity
        ∧ (saveUpd a i r0).firedAt = r0.firedAt
        ∧ (saveUpd a i r0).resolvedAt = r0.resolvedAt
        ∧ (saveUpd a i r0).labels = r0.labels
        ∧ (saveUpd a i r0).annotations = r0.annotations
        ∧ (saveUpd a i r0).threadTS = r0.threadTS
        ∧ (saveUpd a i r0).analysisSummary = r0.analysisSummary
        ∧ (saveUpd a i r0).analysisDetail = r0.analysisDetail
        ∧ (saveUpd a i r0).isFlapping = r0.isFlapping
        ∧ (saveUpd a i r0).flapCycleCount = r0.flapCycleCount
        ∧ (saveUpd a i r0).flapWindowStart = r0.flapWindowStart
        ∧ (saveUpd a i r0).lastFlapNotificationAt = r0.lastFlapNotificationAt
        ∧ (saveUpd a i r0).isEnabled = r0.isEnabled
        ∧ (∀ x, r0.incidentId = some x → ∃ y, (saveUpd a i r0).incidentId = some y))
    ∧ (∀ fp2, (fp2 == a.fingerprint) = false →
        findAlert (SaveAlert st a i) fp2 = findAlert st fp2) := by
  refine ⟨?_, ?_, ?_⟩
  · intro hnone
    refine ⟨?_, rfl, rfl, rfl, rfl, rfl, rfl⟩
    rw [SaveAlert_new st a i hnone]
  · intro r0 hfound
    refine ⟨?_, rfl, rfl, rfl, rfl, rfl, rfl, rfl, rfl, rfl, rfl, rfl, rfl, rfl, rfl,
      rfl, rfl, ?_⟩
    · rw [findAlert_SaveAlert_self, hfound]
    · intro x hx
      by_cases hi : (i == "") = true
      · refine ⟨x, ?_⟩
        simp only [saveUpd]
        rw [if_pos hi]
        exact hx
      · refine ⟨i, ?_⟩
        simp only [saveUpd]
        rw [if_neg hi]
  · intro fp2 hne
    cases hfound : findAlert st a.fingerprint with
    | some r0 =>
        rw [SaveAlert_found st a i r0 hfound]
        rw [findAlert_updateAlertRow st a.fingerprint fp2 (saveUpd a i) (fun r => rfl)]
        cases hf2 : findAlert st fp2 with
        | none => rfl
        | some r2 =>
            have hk : r2.alertId = fp2 := by simpa using findAlert_some_key hf2
            have hcc : (r2.alertId == a.fingerprint) = false := by rw [hk]; exact hne
            show some (if r2.alertId == a.fingerprint then saveUpd a i r2 else r2) =
              some r2
            rw [if_neg (by rw [hcc]; exact Bool.false_ne_true)]
    | none =>
        rw [SaveAlert_new st a i hfound]
        show (st.alerts ++ [insertRow a i]).find? (fun r => r.alertId == fp2) =
          findAlert st fp2
        unfold findAlert
        rw [List.find?_append]
        cases hf2 : st.alerts.find? (fun r => r.alertId == fp2) with
        | some r2 => rfl
        | none =>
            have h3 : fp2 ≠ a.fingerprint := by simpa using hne
            have h4 : ((insertRow a i).alertId == fp2) = false := by
              show (a.fingerprint == fp2) = false
              exact beq_eq_false_iff_ne.mpr (Ne.symm h3)
            simp [List.find?, h4]

/-- Witness: the upsert frame theorem at a concrete insert and a
concrete conflict. -/
theorem c5_save_alert_upsert_frame_witness :
    (SaveAlert emptyState freshResolvedAlert "INC-9").alerts =
      emptyState.alerts ++ [insertRow freshResolvedAlert "INC-9"]
    ∧ findAlert (SaveAlert dupFlappingState dupResolvedAlert "INC-0") "x" =
      some (saveUpd dupResolvedAlert "INC-0"
        (dupFlappingState.alerts.get ⟨0, by decide⟩)) := by
  have h1 := c5_save_alert_upsert_frame emptyState freshResolvedAlert "INC-9"
  have h2 := c5_save_alert_upsert_frame dupFlappingState dupResolvedAlert "INC-0"
  exact ⟨(h1.1 rfl).1, (h2.2.1 _ rfl).1⟩

theorem map_map_eq_of_comp {α β : Type} (l : List α) (f : α → α) (g : α → β)
    (h : ∀ r, g (f r) = g r) : (l.map f).map g = l.map g := by
  rw [List.map_map]
  have hc : (g ∘ f) = g := funext h
  rw [hc]

theorem sevs_updateAlertRow (st : SystemState) (fp : String) (f : AlertRow → AlertRow)
    (hf : ∀ r, (f r).severity = r.severity) :
    ((updateAlertRow st fp f).alerts).map (fun r => r.severity) =
      st.alerts.map (fun r => r.severity) := by
  show (st.alerts.map (fun r => if r.alertId == fp then f r else r)).map
    (fun r => r.severity) = st.alerts.map (fun r => r.severity)
  apply map_map_eq_of_comp
  intro r
  show (if r.alertId == fp then f r else r).severity = r.severity
  by_cases h : (r.alertId == fp) = true
  · rw [if_pos h]
    exact hf r
  · rw [if_neg h]

theorem sevs_detectFlapping (env : Env) (st : SystemState) (now : Timestamp) (a : Alert) :
    ((((detectFlapping env st now a).2.2)).alerts).map (fun r => r.severity) =
      st.alerts.map (fun r => r.severity) := by
  simp only [detectFlapping]
  repeat' split
  all_goals
    first
      | rfl
      | exact sevs_updateAlertRow _ a.fingerprint _ (fun r => rfl)

theorem sevs_afterSend (st : SystemState) (a : Alert) (inc : String) (isF : Bool) :
    ((afterSend st a inc isF).alerts).map (fun r => r.severity) =
      st.alerts.map (fun r => r.severity) := by
  simp only [afterSend]
  repeat' split
  all_goals
    first
      | rfl
      | exact sevs_updateAlertRow st a.fingerprint _ (fun r => rfl)

theorem sevs_fanout (env : Env) (now : Timestamp) (st5 : SystemState) (a : Alert)
    (inc : String) (isF isNF : Bool) :
    (((fanout env now st5 a inc isF isNF).1).alerts).map (fun r => r.severity) =
      st5.alerts.map (fun r => r.severity) := by
  cases isNF with
  | true =>
      cases hsd : SendFlappingDetection env st5 a inc
          (getFlappingCycleCount env st5 now a.fingerprint) with
      | none =>
          have heq : fanout env now st5 a inc isF true = (st5, 0, 1) := by
            simp [fanout, hsd]
          rw [heq]
      | some st6 =>
          have heq : fanout env now st5 a inc isF true = (afterSend st6 a inc isF, 1, 0) := by
            simp [fanout, hsd]
          rw [heq]
          have hfr := SendFlappingDetection_some_frame env st5 a inc _ st6 hsd
          show ((afterSend st6 a inc isF).alerts).map (fun r => r.severity) = _
          rw [sevs_afterSend, hfr.1]
  | false =>
      cases isF with
      | true =>
          rw [fanout_flapping]
          show ((afterSend st5 a inc true).alerts).map (fun r => r.severity) = _
          rw [sevs_afterSend]
      | false =>
          cases hs : SendAlert env st5 a a.status inc with
          | none => rw [fanout_normal_none env now st5 a inc hs]
          | some st6 =>
              rw [fanout_normal_some env now st5 a inc st6 hs]
              have hfr := SendAlert_some_frame env st5 a a.status inc st6 hs
              show ((afterSend st6 a inc false).alerts).map (fun r => r.severity) = _
              rw [sevs_afterSend, hfr.1]

theorem sevs_processAfterGuard (env : Env) (now : Timestamp) (st3 : SystemState)
    (a : Alert) (inc : String) (isF isNF : Bool) :
    (((processAfterGuard env now st3 a inc isF isNF).1).alerts).map (fun r => r.severity) =
      st3.alerts.map (fun r => r.severity) := by
  simp only [processAfterGuard]
  by_cases hss : (!shouldSendToSlack a) = true
  · rw [if_pos hss]
    repeat' split
    all_goals
      first
        | rfl
        | exact sevs_updateAlertRow st3 a.fingerprint _ (fun r => rfl)
  · rw [if_neg hss]
    rw [sevs_fanout, alerts_restoreThread]
    repeat' split
    all_goals
      first
        | rfl
        | exact sevs_updateAlertRow st3 a.fingerprint _ (fun r => rfl)

theorem insertRow_severity (a : Alert) (i : String) (h : shouldProcess a = true) :
    (insertRow a i).severity = "warning" ∨ (insertRow a i).severity = "critical" := by
  simp only [shouldProcess] at h
  show (if lookupLabel a.labels "severity" == "" then "warning"
      else lookupLabel a.labels "severity") = "warning" ∨
    (if lookupLabel a.labels "severity" == "" then "warning"
      else lookupLabel a.labels "severity") = "critical"
  by_cases he : (lookupLabel a.labels "severity" == "") = true
  · left
    rw [if_pos he]
  · rw [if_neg he]
    have h2 : lookupLabel a.labels "severity" = "warning" ∨
        lookupLabel a.labels "severity" = "critical" := by simpa using h
    exact h2

/-- The list of stored severities is preserved by a processed alert,
except that a new alert appends the inserted severity. -/
theorem sevs_processAlert (env : Env) (now : Timestamp) (st : SystemState) (a : Alert) :
    (((processAlert env now st a).1).alerts).map (fun r => r.severity) =
      st.alerts.map (fun r => r.severity)
    ∨ (shouldProcess a = true ∧
       (((processAlert env now st a).1).alerts).map (fun r => r.severity) =
        st.alerts.map (fun r => r.severity) ++
          [(insertRow a ((getOrCreateIncident st a).1)).severity]) := by
  by_cases hsp : shouldProcess a = true
  case neg =>
    left
    rw [processAlert_filtered env now st a (by simpa using hsp)]
  case pos =>
    have hkey : ((SaveAlert ((getOrCreateIncident st a).2) a
        ((getOrCreateIncident st a).1)).alerts).map (fun r => r.severity) =
          st.alerts.map (fun r => r.severity)
        ∨ ((SaveAlert ((getOrCreateIncident st a).2) a
        ((getOrCreateIncident st a).1)).alerts).map (fun r => r.severity) =
          st.alerts.map (fun r => r.severity) ++
            [(insertRow a ((getOrCreateIncident st a).1)).severity] := by
      cases hfound : findAlert ((getOrCreateIncident st a).2) a.fingerprint with
      | some r0 =>
          left
          rw [SaveAlert_found _ _ _ r0 hfound,
            sevs_updateAlertRow ((getOrCreateIncident st a).2) a.fingerprint
              (saveUpd a ((getOrCreateIncident st a).1)) (fun r => rfl),
            (getOrCreateIncident_frame st a).1]
      | none =>
          right
          rw [SaveAlert_new _ _ _ hfound]
          show ((((getOrCreateIncident st a).2).alerts ++
            [insertRow a ((getOrCreateIncident st a).1)]).map (fun r => r.severity)) = _
          rw [List.map_append, (getOrCreateIncident_frame st a).1]
          rfl
    by_cases hg : (a.status == "resolved" && IsAlertAlreadyResolved ((detectFlapping env
        (SaveAlert ((getOrCreateIncident st a).2) a ((getOrCreateIncident st a).1)) now
        a).2.2) a.fingerprint a.endsAt) = true
    · have heq := processAlert_guard_true env st now a hsp hg
      rw [heq]
      rcases hkey with hk | hk
      · left
        rw [sevs_detectFlapping, hk]
      · right
        exact ⟨hsp, by rw [sevs_detectFlapping, hk]⟩
    · have heq := processAlert_guard_false env st now a hsp hg
      rw [heq]
      rw [sevs_processAfterGuard, sevs_detectFlapping]
      rcases hkey with hk | hk
      · left
        exact hk
      · right
        exact ⟨hsp, hk⟩

theorem sevOK_processAlert (env : Env) (now : Timestamp) (st : SystemState) (a : Alert)
    (h : ∀ r ∈ st.alerts, r.severity = "warning" ∨ r.severity = "critical") :
    ∀ r ∈ ((processAlert env now st a).1).alerts,
      r.severity = "warning" ∨ r.severity = "critical" := by
  intro r hr
  have hsev : r.severity ∈
      (((processAlert env now st a).1).alerts).map (fun x => x.severity) :=
    List.mem_map.mpr ⟨r, hr, rfl⟩
  rcases sevs_processAlert env now st a with h1 | ⟨hsp, h1⟩
  · rw [h1] at hsev
    obtain ⟨r2, hr2, he⟩ := List.mem_map.mp hsev
    rw [← he]
    exact h r2 hr2
  · rw [h1] at hsev
    rcases List.mem_append.mp hsev with hm | hm
    · obtain ⟨r2, hr2, he⟩ := List.mem_map.mp hm
      rw [← he]
      exact h r2 hr2
    · have he : r.severity = (insertRow a ((getOrCreateIncident st a).1)).severity := by
        simpa using hm
      rw [he]
      exact insertRow_severity a _ hsp

theorem sevOK_ProcessWebhook (env : Env) (now : Timestamp) (st : SystemState)
    (batch : List Alert)
    (h : ∀ r ∈ st.alerts, r.severity = "warning" ∨ r.severity = "critical") :
    ∀ r ∈ ((ProcessWebhook env now st batch).1).alerts,
      r.severity = "warning" ∨ r.severity = "critical" := by
  suffices haux : ∀ (l : List Alert) (acc : SystemState × Nat × Nat),
      (∀ r ∈ acc.1.alerts, r.severity = "warning" ∨ r.severity = "critical") →
      ∀ r ∈ ((l.foldl (fun acc a =>
          let p := processAlert env now acc.1 a
          (p.1, acc.2.1 + p.2.1, acc.2.2 + p.2.2)) acc).1).alerts,
        r.severity = "warning" ∨ r.severity = "critical" by
    exact haux batch (st, 0, 0) h
  intro l
  induction l with
  | nil => intro acc hacc r hr; exact hacc r hr
  | cons x xs ih =>
      intro acc hacc
      simp only [List.foldl_cons]
      exact ih _ (fun r hr => sevOK_processAlert env now acc.1 x hacc r hr)

/-- C6: the severity filter. An alert whose severity label is neither
warning nor critical is dropped before any effect: the loop body
returns the state unchanged with zero counters, so no alert row,
transition, incident, chat message or analysis request is produced for
it; the filter rejects exactly the severities outside
{warning, critical}, and consequently, whenever every stored alert row
has severity warning or critical, the same holds after processing any
webhook batch. -/
theorem c6_severity_filter_invariant (env : Env) (now : Timestamp) (st : SystemState)
    (a : Alert) (batch : List Alert) :
    (shouldProcess a = false → processAlert env now st a = (st, 0, 0))
    ∧ (shouldProcess a = false ↔
        ¬(lookupLabel a.labels "severity" = "warning" ∨
          lookupLabel a.labels "severity" = "critical"))
    ∧ ((∀ r ∈ st.alerts, r.severity = "warning" ∨ r.severity = "critical") →
        ∀ r ∈ ((ProcessWebhook env now st batch).1).alerts,
          r.severity = "warning" ∨ r.severity = "critical") := by
  refine ⟨processAlert_filtered env now st a, ?_, sevOK_ProcessWebhook env now st batch⟩
  simp only [shouldProcess]
  constructor
  · intro h hc
    rcases hc with hc | hc <;> rw [hc] at h <;> exact absurd h (by decide)
  · intro h
    by_cases h1 : lookupLabel a.labels "severity" = "warning"
    · exact absurd (Or.inl h1) h
    by_cases h2 : lookupLabel a.labels "severity" = "critical"
    · exact absurd (Or.inr h2) h
    have e1 : (lookupLabel a.labels "severity" == "warning") = false :=
      beq_eq_false_iff_ne.mpr h1
    have e2 : (lookupLabel a.labels "severity" == "critical") = false :=
      beq_eq_false_iff_ne.mpr h2
    rw [e1, e2]
    rfl

/-- Witness: the severity filter theorem applied to a concrete info
alert and a concrete well-formed state. -/
theorem c6_severity_filter_invariant_witness :
    shouldProcess infoAlert = false
    ∧ processAlert defaultEnv 0 dupFlappingState infoAlert = (dupFlappingState, 0, 0) := by
  have h := c6_severity_filter_invariant defaultEnv 0 dupFlappingState infoAlert []
  exact ⟨by decide, h.1 (by decide)⟩

/-- For a flapping, not newly flapping alert that passes the Slack
filter, the post-guard pipeline suppresses the chat message and the
analysis request and counts the alert as sent. -/
theorem processAfterGuard_flapping_frame (env : Env) (now : Timestamp) (st3 : SystemState)
    (a : Alert) (inc : String) (hss : shouldSendToSlack a = true) :
    ((processAfterGuard env now st3 a inc true false).1).chat = st3.chat
    ∧ ((processAfterGuard env now st3 a inc true false).1).analysisReqs = st3.analysisReqs
    ∧ (processAfterGuard env now st3 a inc true false).2 = (1, 0) := by
  by_cases hres : (a.status == "resolved") = true
  · have hstatus : a.status = "resolved" := by simpa using hres
    rw [processAfterGuard_flapping_eq env now st3 a inc hstatus hss]
    refine ⟨?_, ?_, rfl⟩
    · show (afterSend (restoreThread _ a) a inc true).chat = st3.chat
      rw [(afterSend_flapping_frame _ a inc).1, chat_restoreThread]
      rfl
    · show (afterSend (restoreThread _ a) a inc true).analysisReqs = st3.analysisReqs
      rw [(afterSend_flapping_frame _ a inc).2.1, analysisReqs_restoreThread]
      rfl
  · have heq : processAfterGuard env now st3 a inc true false =
        (afterSend (restoreThread st3 a) a inc true, 1, 0) := by
      simp only [processAfterGuard]
      rw [if_neg hres, if_neg (by rw [hss]; simp), fanout_flapping]
    rw [heq]
    refine ⟨?_, ?_, rfl⟩
    · show (afterSend (restoreThread st3 a) a inc true).chat = st3.chat
      rw [(afterSend_flapping_frame _ a inc).1, chat_restoreThread]
    · show (afterSend (restoreThread st3 a) a inc true).analysisReqs = st3.analysisReqs
      rw [(afterSend_flapping_frame _ a inc).2.1, analysisReqs_restoreThread]

/-- C7 counterexample: a duplicate resolved webhook for an already
resolved flapping alert is classified is_flapping=true,
is_new_flapping=false, yet the loop body skips it with counters (0, 0):
it is NOT counted as sent. -/
theorem c7_flapping_suppression_counterexample :
    (detectFlapping defaultEnv (SaveAlert ((getOrCreateIncident dupFlappingState
        dupResolvedAlert).2) dupResolvedAlert ((getOrCreateIncident dupFlappingState
        dupResolvedAlert).1)) 11 dupResolvedAlert).1 = true
    ∧ (detectFlapping defaultEnv (SaveAlert ((getOrCreateIncident dupFlappingState
        dupResolvedAlert).2) dupResolvedAlert ((getOrCreateIncident dupFlappingState
        dupResolvedAlert).1)) 11 dupResolvedAlert).2.1 = false
    ∧ (processAlert defaultEnv 11 dupFlappingState dupResolvedAlert).2 = (0, 0)
    ∧ (ProcessWebhook defaultEnv 11 dupFlappingState [dupResolvedAlert]).2 = (0, 0) := by
  decide

/-- C7 as the code has it: when the flapping classification is
(is_flapping=true, is_new_flapping=false) AND the alert is not skipped
by the resolved-duplicate guard, the loop body suppresses the chat
message and the analysis request and still counts the alert as sent. -/
theorem c7_flapping_suppression_amended (env : Env) (now : Timestamp) (st : SystemState)
    (a : Alert) (hsp : shouldProcess a = true)
    (hisf : (detectFlapping env (SaveAlert ((getOrCreateIncident st a).2) a
      ((getOrCreateIncident st a).1)) now a).1 = true)
    (hnew : (detectFlapping env (SaveAlert ((getOrCreateIncident st a).2) a
      ((getOrCreateIncident st a).1)) now a).2.1 = false)
    (hnodup : ¬(a.status == "resolved" && IsAlertAlreadyResolved ((detectFlapping env
      (SaveAlert ((getOrCreateIncident st a).2) a ((getOrCreateIncident st a).1)) now
      a).2.2) a.fingerprint a.endsAt) = true) :
    ((processAlert env now st a).1).chat = st.chat
    ∧ ((processAlert env now st a).1).analysisReqs = st.analysisReqs
    ∧ (processAlert env now st a).2 = (1, 0) := by
  have heq := processAlert_guard_false env st now a hsp hnodup
  rw [heq, hisf, hnew]
  have hss : shouldSendToSlack a = true := by
    unfold shouldSendToSlack
    unfold shouldProcess at hsp
    exact hsp
  have hfr := processAfterGuard_flapping_frame env now ((detectFlapping env (SaveAlert
    ((getOrCreateIncident st a).2) a ((getOrCreateIncident st a).1)) now a).2.2) a
    ((getOrCreateIncident st a).1) hss
  have hD := detectFlapping_frame env (SaveAlert ((getOrCreateIncident st a).2) a
    ((getOrCreateIncident st a).1)) now a
  refine ⟨?_, ?_, hfr.2.2⟩
  · rw [hfr.1, hD.2.1, chat_SaveAlert]
    exact (getOrCreateIncident_frame st a).2.2.1
  · rw [hfr.2.1, hD.2.2.1, analysisReqs_SaveAlert]
    exact (getOrCreateIncident_frame st a).2.2.2.1

/-- Witness: the amended flapping-suppression theorem at a genuine
resolved webhook for a still-firing flapping alert. -/
theorem c7_flapping_suppression_amended_witness :
    ((processAlert defaultEnv 12 flappingFiringState freshResolvedAlert).1).chat =
      flappingFiringState.chat
    ∧ ((processAlert defaultEnv 12 flappingFiringState freshResolvedAlert).1).analysisReqs =
      flappingFiringState.analysisReqs
    ∧ (processAlert defaultEnv 12 flappingFiringState freshResolvedAlert).2 = (1, 0) := by
  have h := c7_flapping_suppression_amended defaultEnv 12 flappingFiringState
    freshResolvedAlert (by decide) (by decide) (by decide) (by decide)
  exact h

theorem filter_nil_of_all {α : Type} (l : List α) (p : α → Bool)
    (h : ∀ a ∈ l, p a = false) : l.filter p = [] := by
  induction l with
  | nil => rfl
  | cons x xs ih =>
      rw [List.filter_cons, h x (List.mem_cons_self x xs)]
      exact ih (fun a ha => h a (List.mem_cons_of_mem x ha))

/-- C8 counterexample: the guard of the resolve UPDATE checks only
`status = firing`, not `is_enabled`: resolving a DISABLED firing
incident succeeds and flips it, against the claim that no enabled
firing incident with the id means a not-found error and no change. -/
theorem c8_resolve_disabled_counterexample :
    (∀ i ∈ disabledFiringState.incidents, i.isEnabled = false)
    ∧ GetFiringIncident disabledFiringState = none
    ∧ (RcaResolveIncident disabledFiringState "INC-7" "alice" 5).isSome = true
    ∧ ((RcaResolveIncident disabledFiringState "INC-7" "alice" 5).map
        (fun st => st.incidents.map (fun r => (r.status, r.resolvedAt, r.resolvedBy)))) =
      some [("resolved", some 5, some "alice")] := by
  decide

/-- C8 as the code has it: the resolve succeeds iff a FIRING row with
the id exists, is_enabled notwithstanding; on success the guarded rows
are atomically set to resolved with the resolver and timestamp, the
summarisation task is recorded, nothing else changes, and a second call
for the same incident returns the not-found error. -/
theorem c8_resolve_incident_amended (st : SystemState) (incidentID resolvedBy u2 : String)
    (now now2 : Timestamp) :
    ((RcaResolveIncident st incidentID resolvedBy now).isSome = true ↔
      ∃ r ∈ st.incidents, r.incidentId = incidentID ∧ r.status = "firing")
    ∧ (∀ st1, RcaResolveIncident st incidentID resolvedBy now = some st1 →
        st1.incidents = st.incidents.map (fun r =>
          if r.incidentId == incidentID && r.status == "firing" then
            { r with status := "resolved", resolvedAt := some now, resolvedBy := some resolvedBy }
          else r)
        ∧ st1.summaryReqs = st.summaryReqs ++ [incidentID]
        ∧ st1.alerts = st.alerts
        ∧ st1.chat = st.chat
        ∧ RcaResolveIncident st1 incidentID u2 now2 = none) := by
  have hiff : ∀ (stX : SystemState) (u : String) (t : Timestamp),
      (ResolveIncident stX incidentID u t).isSome = true ↔
      ∃ r ∈ stX.incidents, (r.incidentId == incidentID && r.status == "firing") = true := by
    intro stX u t
    simp only [ResolveIncident]
    by_cases h : ((stX.incidents.filter (fun r =>
        r.incidentId == incidentID && r.status == "firing")).length == 0) = true
    · rw [if_pos h]
      constructor
      · intro hs
        exact absurd hs (by simp)
      · rintro ⟨r, hr, hp⟩
        have hlen : (stX.incidents.filter (fun r =>
            r.incidentId == incidentID && r.status == "firing")).length = 0 := by
          simpa using h
        have hnil := List.length_eq_zero.mp hlen
        have hmem : r ∈ stX.incidents.filter (fun r =>
            r.incidentId == incidentID && r.status == "firing") :=
          List.mem_filter.mpr ⟨hr, hp⟩
        rw [hnil] at hmem
        exact absurd hmem (List.not_mem_nil r)
    · rw [if_neg h]
      constructor
      · intro hs
        have hlen : (stX.incidents.filter (fun r =>
            r.incidentId == incidentID && r.status == "firing")).length ≠ 0 := by
          simpa using h
        have hne : stX.incidents.filter (fun r =>
            r.incidentId == incidentID && r.status == "firing") ≠ [] :=
          fun hh => hlen (by rw [hh]; rfl)
        obtain ⟨r, hrmem⟩ := List.exists_mem_of_ne_nil _ hne
        have hm := List.mem_filter.mp hrmem
        exact ⟨r, hm.1, hm.2⟩
      · intro hs
        rfl
  constructor
  · constructor
    · intro hs
      have hs2 : (ResolveIncident st incidentID resolvedBy now).isSome = true := by
        unfold RcaResolveIncident at hs
        cases hres : ResolveIncident st incidentID resolvedBy now with
        | none => rw [hres] at hs; exact absurd hs (by simp)
        | some st2 => rfl
      obtain ⟨r, hr, hp⟩ := (hiff st resolvedBy now).mp hs2
      exact ⟨r, hr, by simpa using hp⟩
    · rintro ⟨r, hr, hid, hfir⟩
      have hs2 : (ResolveIncident st incidentID resolvedBy now).isSome = true :=
        (hiff st resolvedBy now).mpr ⟨r, hr, by simp [hid, hfir]⟩
      obtain ⟨st2, hst2⟩ := Option.isSome_iff_exists.mp hs2
      unfold RcaResolveIncident
      rw [hst2]
      rfl
  · intro st1 h1
    unfold RcaResolveIncident at h1
    cases hres : ResolveIncident st incidentID resolvedBy now with
    | none => rw [hres] at h1; exact absurd h1 (by simp)
    | some st2 =>
        rw [hres] at h1
        rw [Option.some.injEq] at h1
        simp only [ResolveIncident] at hres
        split at hres
        · exact absurd hres (by simp)
        · rw [Option.some.injEq] at hres
          subst hres
          subst h1
          refine ⟨rfl, rfl, rfl, rfl, ?_⟩
          have hall : ∀ r2 ∈ st.incidents.map (fun r =>
              if r.incidentId == incidentID && r.status == "firing" then
                { r with status := "resolved", resolvedAt := some now, resolvedBy := some resolvedBy }
              else r),
              (r2.incidentId == incidentID && r2.status == "firing") = false := by
            intro r2 hr2
            obtain ⟨r, hr, hrE⟩ := List.mem_map.mp hr2
            by_cases hm : (r.incidentId == incidentID && r.status == "firing") = true
            · rw [← hrE, if_pos hm]
              simp
            · rw [← hrE, if_neg hm]
              exact Bool.eq_false_iff.mpr hm
          have hfil : ((st.incidents.map (fun r =>
              if r.incidentId == incidentID && r.status == "firing" then
                { r with status := "resolved", resolvedAt := some now, resolvedBy := some resolvedBy }
              else r)).filter (fun r =>
                r.incidentId == incidentID && r.status == "firing")) = [] :=
            filter_nil_of_all _ _ hall
          simp only [RcaResolveIncident, ResolveIncident]
          rw [if_pos (by rw [hfil]; rfl)]

/-- Witness: the amended resolve theorem at a concrete enabled firing
incident; the second call errors. -/
theorem c8_resolve_incident_amended_witness :
    (RcaResolveIncident tbdIncidentState "INC-0" "alice" 5).isSome = true
    ∧ RcaResolveIncident ((RcaResolveIncident tbdIncidentState "INC-0" "alice" 5).getD
        tbdIncidentState) "INC-0" "bob" 6 = none := by
  have h := c8_resolve_incident_amended tbdIncidentState "INC-0" "alice" "bob" 5 6
  refine ⟨h.1.mpr ⟨tbdIncidentState.incidents.get ⟨0, by decide⟩, by decide, by decide,
    by decide⟩, ?_⟩
  exact (h.2 ((RcaResolveIncident tbdIncidentState "INC-0" "alice" 5).getD
    tbdIncidentState) (by decide)).2.2.2.2

/-- C9: the vector-search contract. A non-positive limit falls back to
the default 10; at most the limit is returned; results are ordered by
similarity descending; and every result row carries an incident id,
summary and similarity 1 - distance taken from a stored embedding
row. -/
theorem c9_search_embeddings_contract (dist : List ℚ → List ℚ → ℚ)
    (rows : List EmbeddingRow) (vector : List ℚ) (limit : Int) :
    (limit ≤ 0 → SearchEmbeddings dist rows vector limit =
      SearchEmbeddings dist rows vector 10)
    ∧ (SearchEmbeddings dist rows vector limit).length ≤
        (if limit ≤ 0 then (10 : Int) else limit).toNat
    ∧ (SearchEmbeddings dist rows vector limit).Pairwise
        (fun x y => y.similarity ≤ x.similarity)
    ∧ (∀ res ∈ SearchEmbeddings dist rows vector limit, ∃ r ∈ rows,
        res.incidentId = r.incidentId ∧ res.incidentSummary = r.incidentSummary
        ∧ res.similarity = 1 - dist r.embedding vector) := by
  refine ⟨?_, ?_, ?_, ?_⟩
  · intro h
    simp only [SearchEmbeddings]
    rw [if_pos h, if_neg (by norm_num)]
  · simp only [SearchEmbeddings]
    rw [List.length_map]
    exact List.length_take_le _ _
  · have hsorted : List.Pairwise
        (fun a b : EmbeddingRow => dist a.embedding vector ≤ dist b.embedding vector)
        (List.insertionSort
          (fun a b => dist a.embedding vector ≤ dist b.embedding vector) rows) := by
      haveI hT : IsTotal EmbeddingRow
          (fun a b => dist a.embedding vector ≤ dist b.embedding vector) :=
        ⟨fun a b => le_total _ _⟩
      haveI hR : IsTrans EmbeddingRow
          (fun a b => dist a.embedding vector ≤ dist b.embedding vector) :=
        ⟨fun a b c hab hbc => le_trans hab hbc⟩
      exact List.sorted_insertionSort _ rows
    have htake : List.Pairwise
        (fun a b : EmbeddingRow => dist a.embedding vector ≤ dist b.embedding vector)
        ((List.insertionSort
          (fun a b => dist a.embedding vector ≤ dist b.embedding vector) rows).take
            (if limit ≤ 0 then (10 : Int) else limit).toNat) :=
      List.Pairwise.sublist (List.take_sublist _ _) hsorted
    show (((List.insertionSort
      (fun a b => dist a.embedding vector ≤ dist b.embedding vector) rows).take
        (if limit ≤ 0 then (10 : Int) else limit).toNat).map _).Pairwise _
    rw [List.pairwise_map]
    exact htake.imp (fun hab => by
      show 1 - dist _ vector ≤ 1 - dist _ vector
      exact sub_le_sub_left hab 1)
  · intro res hres
    simp only [SearchEmbeddings] at hres
    obtain ⟨r, hrtake, hrE⟩ := List.mem_map.mp hres
    have hrsort : r ∈ List.insertionSort
        (fun a b => dist a.embedding vector ≤ dist b.embedding vector) rows :=
      (List.take_sublist _ _).subset hrtake
    have hrmem : r ∈ rows :=
      (List.perm_insertionSort
        (fun a b => dist a.embedding vector ≤ dist b.embedding vector) rows).mem_iff.mp
        hrsort
    exact ⟨r, hrmem, by rw [← hrE], by rw [← hrE], by rw [← hrE]⟩

/-- Witness: the vector-search contract at two concrete embedding rows
and a concrete query vector. -/
theorem c9_search_embeddings_contract_witness :
    SearchEmbeddings qdist embRows [2] 0 = SearchEmbeddings qdist embRows [2] 10
    ∧ SearchEmbeddings qdist embRows [2] 2 =
      [{ incidentId := "INC-2", incidentSummary := "s2", similarity := 0 },
       { incidentId := "INC-1", incidentSummary := "s1", similarity := -3 }] := by
  have h := c9_search_embeddings_contract qdist embRows [2] 0
  refine ⟨h.1 (by norm_num), ?_⟩
  norm_num [SearchEmbeddings, embRows, qdist, List.insertionSort, List.orderedInsert]

/-- C10: an empty thread reference short circuits the detached analysis
task: the analyser is never called, the analysis columns and the chat
are untouched; in particular an alert with no stored thread timestamp
(its chat post never succeeded) never receives an analysis. -/
theorem c10_empty_thread_no_analysis (env : Env) (st : SystemState) (a : Alert) :
    RequestAnalysis env st a "" = st
    ∧ (RequestAnalysis env st a "").agentCalls = st.agentCalls
    ∧ (RequestAnalysis env st a "").chat = st.chat
    ∧ (GetAlertThreadTS st a.fingerprint = none →
        RequestAnalysis env st a ((GetAlertThreadTS st a.fingerprint).getD "") = st) := by
  refine ⟨rfl, rfl, rfl, ?_⟩
  intro h
  rw [h]
  rfl

/-- Witness: the empty-thread theorem at a concrete alert with no
stored thread timestamp. -/
theorem c10_empty_thread_no_analysis_witness :
    RequestAnalysis defaultEnv emptyState freshResolvedAlert "" = emptyState
    ∧ RequestAnalysis defaultEnv emptyState freshResolvedAlert
        ((GetAlertThreadTS emptyState freshResolvedAlert.fingerprint).getD "") =
      emptyState := by
  have h := c10_empty_thread_no_analysis defaultEnv emptyState freshResolvedAlert
  exact ⟨h.1, h.2.2.2 rfl⟩

/-- Witness: the clearance characterization at a concrete stably
resolved flapping alert with a known thread: the check clears the flag
and posts the thread message. -/
theorem c3_clearance_characterization_witness :
    (runFlappingClearanceCheck defaultEnv clearanceReadyState "x" 10).1 = true
    ∧ ChatEvent.flappingCleared "x" "T1" ∈
      (runFlappingClearanceCheck defaultEnv clearanceReadyState "x" 10).2.chat := by
  have h := c3_clearance_characterization defaultEnv clearanceReadyState "x" 10
  exact ⟨by decide, h.2 "T1" (by decide) (by decide) rfl rfl⟩

/-- C2 amended: the per-row effect of update_severity, for every
incoming string: row ids are kept, stored TBD and stored critical rows
are never changed, and a row changes only when its stored severity is
info (overwritten with the incoming value) or warning with an incoming
critical. For the concrete incoming severities info, warning and
critical, the stored severity rank in the order
TBD < info < warning < critical never decreases and the only changes
performed are info to warning, info to critical and warning to
critical. The pipeline reaches the update only through
getOrCreateIncident for alerts past the severity filter, whose label is
warning or critical, so every stored incident keeps an id-matched row
whose rank never drops. -/
theorem c2_update_severity_monotone (st : SystemState) (incidentID s : String) (a : Alert) :
    (UpdateIncidentSeverity st incidentID s).incidents =
        st.incidents.map (sevUpdRow incidentID s)
    ∧ (∀ r : IncidentRow,
        (sevUpdRow incidentID s r).incidentId = r.incidentId
        ∧ (r.severity = "TBD" → sevUpdRow incidentID s r = r)
        ∧ (r.severity = "critical" → sevUpdRow incidentID s r = r)
        ∧ (sevUpdRow incidentID s r ≠ r →
            (r.severity = "info" ∨ (r.severity = "warning" ∧ s = "critical"))
            ∧ (sevUpdRow incidentID s r).severity = s))
    ∧ ((s = "info" ∨ s = "warning" ∨ s = "critical") → ∀ r : IncidentRow,
        sevRank r.severity ≤ sevRank (sevUpdRow incidentID s r).severity
        ∧ ((sevUpdRow incidentID s r).severity ≠ r.severity →
            (r.severity = "info" ∧ (s = "warning" ∨ s = "critical"))
            ∨ (r.severity = "warning" ∧ s = "critical")))
    ∧ (shouldProcess a = true →
        (lookupLabel a.labels "severity" = "warning"
          ∨ lookupLabel a.labels "severity" = "critical")
        ∧ ∀ r ∈ st.incidents, ∃ r2 ∈ ((getOrCreateIncident st a).2).incidents,
            r2.incidentId = r.incidentId ∧ sevRank r.severity ≤ sevRank r2.severity) := by
  have hrank : ∀ (i2 s2 : String), (s2 = "info" ∨ s2 = "warning" ∨ s2 = "critical") →
      ∀ r : IncidentRow, sevRank r.severity ≤ sevRank (sevUpdRow i2 s2 r).severity := by
    intro i2 s2 hs r
    by_cases hc : (r.incidentId == i2 &&
        (r.severity == "info" || (r.severity == "warning" && s2 == "critical"))) = true
    · have hrw : sevUpdRow i2 s2 r = { r with severity := s2 } := by
        unfold sevUpdRow; rw [if_pos hc]
      rcases Bool.and_eq_true_iff.mp hc with ⟨-, hsev⟩
      rcases Bool.or_eq_true_iff.mp hsev with hinfo | hwarn
      · have hr : r.severity = "info" := by simpa using hinfo
        rw [hrw]
        rcases hs with h | h | h <;> simp [sevRank, hr, h]
      · have hr : r.severity = "warning" := by
          have h2 := (Bool.and_eq_true_iff.mp hwarn).1
          simpa using h2
        have hcrit : s2 = "critical" := by
          have h2 := (Bool.and_eq_true_iff.mp hwarn).2
          simpa using h2
        rw [hrw]
        simp [sevRank, hr, hcrit]
    · have hrw : sevUpdRow i2 s2 r = r := by
        unfold sevUpdRow; rw [if_neg hc]
      rw [hrw]
  refine ⟨rfl, ?_, ?_, ?_⟩
  · intro r
    by_cases hc : (r.incidentId == incidentID &&
        (r.severity == "info" || (r.severity == "warning" && s == "critical"))) = true
    · have hrw : sevUpdRow incidentID s r = { r with severity := s } := by
        unfold sevUpdRow; rw [if_pos hc]
      rcases Bool.and_eq_true_iff.mp hc with ⟨-, hsev⟩
      have hr : r.severity = "info" ∨ (r.severity = "warning" ∧ s = "critical") := by
        rcases Bool.or_eq_true_iff.mp hsev with hinfo | hwarn
        · exact Or.inl (by simpa using hinfo)
        · exact Or.inr ⟨by simpa using (Bool.and_eq_true_iff.mp hwarn).1,
            by simpa using (Bool.and_eq_true_iff.mp hwarn).2⟩
      refine ⟨(sevUpdRow_fields incidentID s r).2.2.2, ?_, ?_, fun _ => ⟨hr, by rw [hrw]⟩⟩
      · intro htbd
        rcases hr with h | h
        · rw [htbd] at h; exact absurd h (by decide)
        · rw [htbd] at h; exact absurd h.1 (by decide)
      · intro hcr
        rcases hr with h | h
        · rw [hcr] at h; exact absurd h (by decide)
        · rw [hcr] at h; exact absurd h.1 (by decide)
    · have hrw : sevUpdRow incidentID s r = r := by
        unfold sevUpdRow; rw [if_neg hc]
      exact ⟨(sevUpdRow_fields incidentID s r).2.2.2, fun _ => hrw, fun _ => hrw,
        fun hne => absurd hrw hne⟩
  · intro hs r
    refine ⟨hrank incidentID s hs r, ?_⟩
    intro hne
    by_cases hc : (r.incidentId == incidentID &&
        (r.severity == "info" || (r.severity == "warning" && s == "critical"))) = true
    · have hrw : sevUpdRow incidentID s r = { r with severity := s } := by
        unfold sevUpdRow; rw [if_pos hc]
      rcases Bool.and_eq_true_iff.mp hc with ⟨-, hsev⟩
      rcases Bool.or_eq_true_iff.mp hsev with hinfo | hwarn
      · have hr : r.severity = "info" := by simpa using hinfo
        left
        refine ⟨hr, ?_⟩
        rcases hs with h | h | h
        · exfalso
          apply hne
          rw [hrw, hr, h]
        · exact Or.inl h
        · exact Or.inr h
      · right
        exact ⟨by simpa using (Bool.and_eq_true_iff.mp hwarn).1,
          by simpa using (Bool.and_eq_true_iff.mp hwarn).2⟩
    · have hrw : sevUpdRow incidentID s r = r := by
        unfold sevUpdRow; rw [if_neg hc]
      rw [hrw] at hne
      exact absurd rfl hne
  · intro hsp
    have hlab : lookupLabel a.labels "severity" = "warning"
        ∨ lookupLabel a.labels "severity" = "critical" := by
      simp only [shouldProcess] at hsp
      simpa using hsp
    refine ⟨hlab, ?_⟩
    intro r hr
    cases hfi : GetFiringIncident st with
    | none =>
        rw [getOrCreateIncident_none st a hfi]
        refine ⟨r, ?_, rfl, le_refl _⟩
        show r ∈ st.incidents ++ [_]
        exact List.mem_append_left _ hr
    | some i =>
        rw [getOrCreateIncident_found_state st a i hfi]
        have hne0 : ¬ (lookupLabel a.labels "severity" == "") = true := by
          intro h0
          have h0e : lookupLabel a.labels "severity" = "" := by simpa using h0
          rcases hlab with h | h <;> rw [h0e] at h <;> exact absurd h (by decide)
        rw [if_neg hne0]
        refine ⟨sevUpdRow i.incidentId (lookupLabel a.labels "severity") r, ?_,
          (sevUpdRow_fields i.incidentId (lookupLabel a.labels "severity") r).2.2.2, ?_⟩
        · show sevUpdRow i.incidentId (lookupLabel a.labels "severity") r ∈
            st.incidents.map (sevUpdRow i.incidentId (lookupLabel a.labels "severity"))
          exact List.mem_map.mpr ⟨r, hr, rfl⟩
        · refine hrank i.incidentId (lookupLabel a.labels "severity") ?_ r
          rcases hlab with h | h
          · exact Or.inr (Or.inl h)
          · exact Or.inr (Or.inr h)

/-- Witness for the amended C2 theorem: the rank bound instantiated at
the concrete incoming severity critical, and the pipeline conjunct at a
concrete filtered alert. -/
theorem c2_update_severity_monotone_witness :
    ((UpdateIncidentSeverity tbdIncidentState "INC-0" "critical").incidents =
        tbdIncidentState.incidents.map (sevUpdRow "INC-0" "critical"))
    ∧ (∀ r : IncidentRow,
        sevRank r.severity ≤ sevRank (sevUpdRow "INC-0" "critical" r).severity
        ∧ ((sevUpdRow "INC-0" "critical" r).severity ≠ r.severity →
            (r.severity = "info" ∧ ("critical" = "warning" ∨ "critical" = "critical"))
            ∨ (r.severity = "warning" ∧ "critical" = "critical")))
    ∧ (∀ r ∈ tbdIncidentState.incidents, ∃ r2 ∈
        ((getOrCreateIncident tbdIncidentState freshResolvedAlert).2).incidents,
        r2.incidentId = r.incidentId ∧ sevRank r.severity ≤ sevRank r2.severity) := by
  have h := c2_update_severity_monotone tbdIncidentState "INC-0" "critical"
    freshResolvedAlert
  exact ⟨h.1, h.2.2.1 (Or.inr (Or.inr rfl)), (h.2.2.2 (by decide)).2⟩

end PreservationKit

end KubeRca
